import Mathlib

/-!
# Verification of the techindicators Go package

Shallow embedding of the technical-indicator engines (moving average,
Bollinger bands, RSI, volume analysis) and the two signal-fusion layers
(`ComprehensiveAnalysis`, `UltimateAnalysis`), together with proofs of the
specification claims.

Modelling conventions:
* Go `float64` values are modelled as real numbers (`ℝ`); `math.Sqrt` is
  `Real.sqrt`.
* Go `int` parameters are modelled as `ℤ`; list indices are `ℕ` after the
  positivity checks that every engine performs up front.
* A Go function returning `(T, error)` is modelled as `T × Option GoErr`;
  on the error path Go returns the zero value of `T`, which we mirror with
  an explicit zero element.
* A Go `string` that is only ever parsed (the legacy `[][]string` candle
  format) is modelled by its parse denotations: `GoStr.asFloat` is the
  result of `strconv.ParseFloat` and `GoStr.asTime` the result of the
  RFC3339 `time.Parse`.  `time.Time` is modelled as `ℤ` (unix seconds),
  and the `Format(...)` call used for result timestamps is `formatTime`.
* Signal/condition tags are the `String` literals used by the source.
-/

noncomputable section

/-- Denotation of a Go string from the legacy candle format: what it parses
to as a float and as an RFC3339 time. -/
structure GoStr where
  asFloat : Option ℝ
  asTime : Option ℤ
deriving DecidableEq

/-- The zero-value / placeholder string. -/
def GoStr.zero : GoStr := ⟨none, none⟩

/-- `time.Time.Format("2006-01-02T15:04:05Z")` applied to a time value:
an RFC3339-style string, which parses back to the same time and does not
parse as a float. -/
def formatTime (t : ℤ) : GoStr := ⟨none, some t⟩

/-- The error values produced by the package (abstracting the Go error
messages; arguments record the data interpolated into the message). -/
inductive GoErr where
  | emptyDataset
  | nonPositivePeriod
  | periodGTLen (p n : ℤ)
  | periodGELen (p n : ℤ)
  | insufficientChanges (p : ℤ)
  | nonPositiveMultiplier
  | squeezeInsufficient
  | fastNotLtSlow
  | crossoverInsufficient
  | noResults
  | nonPositivePeriods
  | volumeInsufficient (m : ℤ)
  | invalidCandleData
  | invalidOpenPrice
  | invalidClosePrice
  | invalidHighPrice
  | invalidLowPrice
  | invalidVolume
  | invalidCandle (i n : ℕ)
  | invalidTimestamp (i : ℕ)
  | wrapIndex (i : ℕ) (e : GoErr)
deriving DecidableEq

/-- `PriceType` selects which price an indicator reads from a candle. -/
inductive PriceType where
  | ClosePrice
  | OpenPrice
  | HighPrice
  | LowPrice
  | TypicalPrice
  | WeightedPrice
deriving DecidableEq

export PriceType (ClosePrice OpenPrice HighPrice LowPrice TypicalPrice WeightedPrice)

/-- `OHLCV` represents a single candle (field `Open` is renamed `Open_`
because `open` collides with a Lean keyword family). -/
structure OHLCV where
  Timestamp : ℤ
  Open_ : ℝ
  High : ℝ
  Low : ℝ
  Close : ℝ
  Volume : ℝ

/-- The Go zero value of `OHLCV`. -/
def OHLCV.zero : OHLCV := ⟨0, 0, 0, 0, 0, 0⟩

/-- `OHLCV.ExtractPrice` extracts the specified price type from OHLCV data.
(The Go `default:` branch returning the close price is unreachable here
because `PriceType` is a closed enumeration.) -/
def OHLCV.ExtractPrice (o : OHLCV) (priceType : PriceType) : ℝ :=
  match priceType with
  | OpenPrice => o.Open_
  | ClosePrice => o.Close
  | HighPrice => o.High
  | LowPrice => o.Low
  | TypicalPrice => (o.High + o.Low + o.Close) / 3
  | WeightedPrice => (o.High + o.Low + 2 * o.Close) / 4

/-- `SMAResult` represents the result of SMA calculation. -/
structure SMAResult where
  Timestamp : GoStr
  Value : ℝ

/-- The Go zero value of `SMAResult`. -/
def SMAResult.zero : SMAResult := ⟨GoStr.zero, 0⟩

/-- `extractPrice` extracts the specified price type from a legacy string
candle `[timestamp, open, close, high, low, volume]`.  Faithful to the Go
source: it first checks the field count, then parses open, close, high and
low in that order, failing on the first unparsable field. -/
def extractPrice (candle : List GoStr) (priceType : PriceType) : ℝ × Option GoErr :=
  if candle.length < 6 then (0, some .invalidCandleData)
  else
    match (candle.getD 1 GoStr.zero).asFloat with
    | none => (0, some .invalidOpenPrice)
    | some op =>
      match (candle.getD 2 GoStr.zero).asFloat with
      | none => (0, some .invalidClosePrice)
      | some cl =>
        match (candle.getD 3 GoStr.zero).asFloat with
        | none => (0, some .invalidHighPrice)
        | some hi =>
          match (candle.getD 4 GoStr.zero).asFloat with
          | none => (0, some .invalidLowPrice)
          | some lo =>
            match priceType with
            | OpenPrice => (op, none)
            | ClosePrice => (cl, none)
            | HighPrice => (hi, none)
            | LowPrice => (lo, none)
            | TypicalPrice => ((hi + lo + cl) / 3, none)
            | WeightedPrice => ((hi + lo + 2 * cl) / 4, none)

/-- `CalculateSMA` (the `[]OHLCV` variant) calculates the Simple Moving
Average: one point per index `i` from `period-1` to `len-1`, the mean of
the selected price over the trailing window, stamped with bar `i`'s
formatted timestamp. -/
def CalculateSMA (dataset : List OHLCV) (period : ℤ) (priceType : PriceType) :
    List SMAResult × Option GoErr :=
  if dataset.length = 0 then ([], some .emptyDataset)
  else if period ≤ 0 then ([], some .nonPositivePeriod)
  else if (dataset.length : ℤ) < period then
    ([], some (.periodGTLen period dataset.length))
  else
    let p := period.toNat
    ((List.range (dataset.length - p + 1)).map (fun j =>
      { Timestamp := formatTime ((dataset.getD (j + p - 1) OHLCV.zero).Timestamp)
        Value := (((dataset.drop j).take p).map (fun c => c.ExtractPrice priceType)).sum /
          (period : ℝ) }), none)

/-- `GetLatestSMA` returns the most recent SMA value (`[]OHLCV` variant). -/
def GetLatestSMA (dataset : List OHLCV) (period : ℤ) (priceType : PriceType) :
    ℝ × Option GoErr :=
  match CalculateSMA dataset period priceType with
  | (_, some e) => (0, some e)
  | (smaResults, none) =>
    if smaResults.length = 0 then (0, some .noResults)
    else ((smaResults.getD (smaResults.length - 1) SMAResult.zero).Value, none)

/-- `IsPriceAboveSMA` checks if the latest close price is above the latest
SMA value (`[]OHLCV` variant). -/
def IsPriceAboveSMA (dataset : List OHLCV) (period : ℤ) (priceType : PriceType) :
    Bool × Option GoErr :=
  if dataset.length = 0 then (false, some .emptyDataset)
  else
    match GetLatestSMA dataset period priceType with
    | (_, some e) => (false, some e)
    | (latestSMA, none) =>
      let currentPrice := (dataset.getD (dataset.length - 1) OHLCV.zero).ExtractPrice ClosePrice
      (decide (currentPrice > latestSMA), none)

/-- `SMACrossover` detects a bullish/bearish crossover between the fast and
slow SMAs (`[]OHLCV` variant). -/
def SMACrossover (dataset : List OHLCV) (fastPeriod slowPeriod : ℤ)
    (priceType : PriceType) : String × Option GoErr :=
  if slowPeriod ≤ fastPeriod then ("", some .fastNotLtSlow)
  else if (dataset.length : ℤ) < slowPeriod + 1 then ("", some .crossoverInsufficient)
  else
    match CalculateSMA dataset fastPeriod priceType with
    | (_, some e) => ("", some e)
    | (fastSMA, none) =>
      match CalculateSMA dataset slowPeriod priceType with
      | (_, some e) => ("", some e)
      | (slowSMA, none) =>
        if fastSMA.length < 2 ∨ slowSMA.length < 2 then ("no_signal", none)
        else
          let fastCurrent := (fastSMA.getD (fastSMA.length - 1) SMAResult.zero).Value
          let fastPrevious := (fastSMA.getD (fastSMA.length - 2) SMAResult.zero).Value
          let slowCurrent := (slowSMA.getD (slowSMA.length - 1) SMAResult.zero).Value
          let slowPrevious := (slowSMA.getD (slowSMA.length - 2) SMAResult.zero).Value
          if fastPrevious ≤ slowPrevious ∧ fastCurrent > slowCurrent then
            ("bullish_crossover", none)
          else if fastPrevious ≥ slowPrevious ∧ fastCurrent < slowCurrent then
            ("bearish_crossover", none)
          else ("no_signal", none)

/-- Inner loop of the legacy SMA: sum the extracted prices of a window,
failing on the first extraction error, wrapped with its absolute index. -/
def sumPricesFrom (priceType : PriceType) : List (List GoStr) → ℕ → ℝ × Option GoErr
  | [], _ => (0, none)
  | c :: rest, base =>
    match extractPrice c priceType with
    | (_, some e) => (0, some (.wrapIndex base e))
    | (v, none) =>
      match sumPricesFrom priceType rest (base + 1) with
      | (_, some e) => (0, some e)
      | (s, none) => (v + s, none)

/-- Outer loop of the legacy SMA: one window per iteration, starting at
drop-index `j`, with `k` windows remaining; on any extraction error the
whole computation returns `nil` plus that first error. -/
def smaLoopStr (dataset : List (List GoStr)) (priceType : PriceType) (period : ℤ)
    (p : ℕ) : ℕ → ℕ → List SMAResult × Option GoErr
  | _, 0 => ([], none)
  | j, k + 1 =>
    match sumPricesFrom priceType ((dataset.drop j).take p) j with
    | (_, some e) => ([], some e)
    | (s, none) =>
      match smaLoopStr dataset priceType period p (j + 1) k with
      | (_, some e) => ([], some e)
      | (rs, none) =>
        ({ Timestamp := (dataset.getD (j + p - 1) []).getD 0 GoStr.zero
           Value := s / (period : ℝ) } :: rs, none)

/-- `CalculateSMA` (the legacy `[][]string` variant). -/
def CalculateSMAStr (dataset : List (List GoStr)) (period : ℤ)
    (priceType : PriceType) : List SMAResult × Option GoErr :=
  if dataset.length = 0 then ([], some .emptyDataset)
  else if period ≤ 0 then ([], some .nonPositivePeriod)
  else if (dataset.length : ℤ) < period then
    ([], some (.periodGTLen period dataset.length))
  else
    let p := period.toNat
    smaLoopStr dataset priceType period p 0 (dataset.length - p + 1)

/-- `RSIResult` represents one RSI calculation result. -/
structure RSIResult where
  Timestamp : GoStr
  Value : ℝ
  Signal : String

/-- The Go zero value of `RSIResult`. -/
def RSIResult.zero : RSIResult := ⟨GoStr.zero, 0, ""⟩

/-- `RSICondition` tags (a Go string type). -/
abbrev RSICondition := String

/-- RSI condition constant. -/
def RSIOverbought : RSICondition := "overbought"

/-- RSI condition constant. -/
def RSIOversold : RSICondition := "oversold"

/-- RSI condition constant. -/
def RSINeutral : RSICondition := "neutral"

/-- RSI condition constant. -/
def RSIExtremeHigh : RSICondition := "extreme_high"

/-- RSI condition constant. -/
def RSIExtremeLow : RSICondition := "extreme_low"

/-- `getRSISignal` determines the signal tag for an RSI value. -/
def getRSISignal (rsi : ℝ) : String :=
  if rsi ≥ 80 then "extreme_overbought"
  else if rsi ≥ 70 then "overbought"
  else if rsi ≤ 20 then "extreme_oversold"
  else if rsi ≤ 30 then "oversold"
  else "neutral"

/-- The `RS` value: `avgGain/avgLoss`, overridden to the sentinel `100`
when `avgLoss == 0` (mirrors the Go assignment-then-overwrite). -/
def rsOf (avgGain avgLoss : ℝ) : ℝ :=
  if avgLoss = 0 then 100 else avgGain / avgLoss

/-- One RSI oscillator value from the smoothed averages. -/
def rsiValue (avgGain avgLoss : ℝ) : ℝ :=
  100 - 100 / (1 + rsOf avgGain avgLoss)

/-- The change list: for each consecutive pair of bars, the (gain, loss)
split of the price change together with the later bar's timestamp.  A
change `> 0` contributes `(change, 0)`; otherwise `(0, -change)`. -/
def rsiChanges (priceType : PriceType) : List OHLCV → List (ℝ × ℝ × ℤ)
  | a :: b :: rest =>
    let change := b.ExtractPrice priceType - a.ExtractPrice priceType
    (if change > 0 then (change, 0, b.Timestamp) else (0, -change, b.Timestamp)) ::
      rsiChanges priceType (b :: rest)
  | _ => []

/-- The Wilder-smoothing loop over the changes after the seed window:
`avg' = (avg*(period-1) + sample)/period`, emitting one result per change. -/
def rsiLoop (period : ℤ) (avgGain avgLoss : ℝ) :
    List (ℝ × ℝ × ℤ) → List RSIResult
  | [] => []
  | (g, l, t) :: rest =>
    let avgGain' := (avgGain * ((period : ℝ) - 1) + g) / (period : ℝ)
    let avgLoss' := (avgLoss * ((period : ℝ) - 1) + l) / (period : ℝ)
    let rsi := rsiValue avgGain' avgLoss'
    { Timestamp := formatTime t, Value := rsi, Signal := getRSISignal rsi } ::
      rsiLoop period avgGain' avgLoss' rest

/-- `CalculateRSI` calculates the Relative Strength Index: seed averages
are plain means over the first `period` changes, every later value uses
Wilder smoothing; `RS = 100` when the average loss is zero. -/
def CalculateRSI (dataset : List OHLCV) (period : ℤ) (priceType : PriceType) :
    List RSIResult × Option GoErr :=
  if dataset.length = 0 then ([], some .emptyDataset)
  else if period ≤ 0 then ([], some .nonPositivePeriod)
  else if period ≥ (dataset.length : ℤ) then
    ([], some (.periodGELen period dataset.length))
  else
    let changes := rsiChanges priceType dataset
    if (changes.length : ℤ) < period then ([], some (.insufficientChanges period))
    else
      let p := period.toNat
      let seed := changes.take p
      let avgGain := (seed.map (fun c => c.1)).sum / (period : ℝ)
      let avgLoss := (seed.map (fun c => c.2.1)).sum / (period : ℝ)
      let rsi := rsiValue avgGain avgLoss
      let firstTs := (dataset.getD p OHLCV.zero).Timestamp
      ({ Timestamp := formatTime firstTs, Value := rsi, Signal := getRSISignal rsi } ::
        rsiLoop period avgGain avgLoss (changes.drop p), none)

/-- `GetLatestRSI` returns the most recent RSI value. -/
def GetLatestRSI (dataset : List OHLCV) (period : ℤ) (priceType : PriceType) :
    RSIResult × Option GoErr :=
  match CalculateRSI dataset period priceType with
  | (_, some e) => (RSIResult.zero, some e)
  | (rsiResults, none) =>
    if rsiResults.length = 0 then (RSIResult.zero, some .noResults)
    else (rsiResults.getD (rsiResults.length - 1) RSIResult.zero, none)

/-- `RSIDivergence` describes a detected price/RSI divergence. -/
structure RSIDivergence where
  Type_ : String
  Strength : String
  Confidence : ℝ

/-- The Go zero value of `RSIDivergence`. -/
def RSIDivergence.zero : RSIDivergence := ⟨"", "", 0⟩

/-- Interior peak/trough scan: for each element with both neighbours,
record `(closePrice, rsiValue)` in the highs list when the RSI value is
strictly greater than both neighbours, and in the lows list when strictly
less (in scan order, mirroring the Go append loop). -/
def scanExtremes : List (ℝ × ℝ) → List (ℝ × ℝ) × List (ℝ × ℝ)
  | (_pa, ra) :: (pb, rb) :: (pc, rc) :: rest =>
    let (hs, ls) := scanExtremes ((pb, rb) :: (pc, rc) :: rest)
    ((if rb > ra ∧ rb > rc then [(pb, rb)] else []) ++ hs,
     (if rb < ra ∧ rb < rc then [(pb, rb)] else []) ++ ls)
  | _ => ([], [])

/-- `DetectRSIDivergence` identifies potential trend-reversal signals by
comparing the two most recent paired price/RSI peaks and troughs over a
lookback window (raised to a minimum of 5). -/
def DetectRSIDivergence (dataset : List OHLCV) (period : ℤ) (priceType : PriceType)
    (lookback : ℤ) : RSIDivergence × Option GoErr :=
  let lb := if lookback < 5 then (5 : ℤ) else lookback
  match CalculateRSI dataset period priceType with
  | (_, some e) => (RSIDivergence.zero, some e)
  | (rsiResults, none) =>
    if (rsiResults.length : ℤ) < lb ∨ (dataset.length : ℤ) < lb then
      ({ Type_ := "none", Strength := "insufficient_data", Confidence := 0 }, none)
    else
      let n := lb.toNat
      let recentRSI := rsiResults.drop (rsiResults.length - n)
      let recentPrices := dataset.drop (dataset.length - n)
      let paired := List.zipWith
        (fun (c : OHLCV) (r : RSIResult) => (c.ExtractPrice ClosePrice, r.Value))
        recentPrices recentRSI
      let (highs, lows) := scanExtremes paired
      let bearish :=
        if 2 ≤ highs.length then
          let lastPriceHigh := (highs.getD (highs.length - 1) (0, 0)).1
          let prevPriceHigh := (highs.getD (highs.length - 2) (0, 0)).1
          let lastRSIHigh := (highs.getD (highs.length - 1) (0, 0)).2
          let prevRSIHigh := (highs.getD (highs.length - 2) (0, 0)).2
          if lastPriceHigh > prevPriceHigh ∧ lastRSIHigh < prevRSIHigh then
            let confidence := |lastRSIHigh - prevRSIHigh| / 10
            some { Type_ := "bearish", Strength := "regular"
                   Confidence := if confidence > 1 then 1 else confidence }
          else none
        else none
      match bearish with
      | some d => (d, none)
      | none =>
        let bullish :=
          if 2 ≤ lows.length then
            let lastPriceLow := (lows.getD (lows.length - 1) (0, 0)).1
            let prevPriceLow := (lows.getD (lows.length - 2) (0, 0)).1
            let lastRSILow := (lows.getD (lows.length - 1) (0, 0)).2
            let prevRSILow := (lows.getD (lows.length - 2) (0, 0)).2
            if lastPriceLow < prevPriceLow ∧ lastRSILow > prevRSILow then
              let confidence := |lastRSILow - prevRSILow| / 10
              some { Type_ := "bullish", Strength := "regular"
                     Confidence := if confidence > 1 then 1 else confidence }
            else none
          else none
        match bullish with
        | some d => (d, none)
        | none => ({ Type_ := "none", Strength := "none", Confidence := 0 }, none)

/-- `RSIStrategy` aggregates the RSI analysis. -/
structure RSIStrategy where
  Current : RSIResult
  Condition : RSICondition
  Divergence : RSIDivergence
  Signal : String
  Momentum : String

/-- The Go zero value of `RSIStrategy`. -/
def RSIStrategy.zero : RSIStrategy := ⟨RSIResult.zero, "", RSIDivergence.zero, "", ""⟩

/-- `AnalyzeRSIStrategy` provides the complete RSI analysis: latest value,
condition classification, divergence (lookback 10), three-point momentum
trend and the trading signal. -/
def AnalyzeRSIStrategy (dataset : List OHLCV) (period : ℤ) (priceType : PriceType) :
    RSIStrategy × Option GoErr :=
  match GetLatestRSI dataset period priceType with
  | (_, some e) => (RSIStrategy.zero, some e)
  | (currentRSI, none) =>
    let condition : RSICondition :=
      if currentRSI.Value ≥ 80 then RSIExtremeHigh
      else if currentRSI.Value ≥ 70 then RSIOverbought
      else if currentRSI.Value ≤ 20 then RSIExtremeLow
      else if currentRSI.Value ≤ 30 then RSIOversold
      else RSINeutral
    match DetectRSIDivergence dataset period priceType 10 with
    | (_, some e) => (RSIStrategy.zero, some e)
    | (divergence, none) =>
      match CalculateRSI dataset period priceType with
      | (_, some e) => (RSIStrategy.zero, some e)
      | (rsiResults, none) =>
        let momentum :=
          if 3 ≤ rsiResults.length then
            let recent := rsiResults.drop (rsiResults.length - 3)
            let r0 := (recent.getD 0 RSIResult.zero).Value
            let r1 := (recent.getD 1 RSIResult.zero).Value
            let r2 := (recent.getD 2 RSIResult.zero).Value
            if r2 > r1 ∧ r1 > r0 then "strengthening"
            else if r2 < r1 ∧ r1 < r0 then "weakening"
            else "neutral"
          else "neutral"
        let signal :=
          if condition = RSIExtremeLow ∧ divergence.Type_ = "bullish" then "strong_buy"
          else if condition = RSIExtremeHigh ∧ divergence.Type_ = "bearish" then "strong_sell"
          else if condition = RSIOversold ∧ momentum = "strengthening" then "buy"
          else if condition = RSIOverbought ∧ momentum = "weakening" then "sell"
          else if currentRSI.Value > 50 ∧ momentum = "strengthening" then "bullish"
          else if currentRSI.Value < 50 ∧ momentum = "weakening" then "bearish"
          else "hold"
        ({ Current := currentRSI, Condition := condition, Divergence := divergence
           Signal := signal, Momentum := momentum }, none)

/-- `BollingerBands` represents one Bollinger Bands point. -/
structure BollingerBands where
  Timestamp : GoStr
  UpperBand : ℝ
  MiddleBand : ℝ
  LowerBand : ℝ
  BandWidth : ℝ

/-- The Go zero value of `BollingerBands`. -/
def BollingerBands.zero : BollingerBands := ⟨GoStr.zero, 0, 0, 0, 0⟩

/-- `BollingerPosition` tags (a Go string type). -/
abbrev BollingerPosition := String

/-- Band position constant. -/
def AboveUpperBand : BollingerPosition := "above_upper"

/-- Band position constant. -/
def BetweenBands : BollingerPosition := "between_bands"

/-- Band position constant. -/
def BelowLowerBand : BollingerPosition := "below_lower"

/-- Band position constant. -/
def TouchingUpper : BollingerPosition := "touching_upper"

/-- Band position constant. -/
def TouchingLower : BollingerPosition := "touching_lower"

/-- One Bollinger Bands point from a window's prices: middle = mean,
population standard deviation (divide by `period`), `upper/lower = mean ±
multiplier*stdDev`, band width `(upper-lower)/mean` guarded against a zero
mean. -/
def mkBBPoint (ts : GoStr) (prices : List ℝ) (period : ℤ) (multiplier : ℝ) :
    BollingerBands :=
  let sma := prices.sum / (period : ℝ)
  let varianceSum := (prices.map (fun price => (price - sma) * (price - sma))).sum
  let stdDev := Real.sqrt (varianceSum / (period : ℝ))
  let upperBand := sma + multiplier * stdDev
  let lowerBand := sma - multiplier * stdDev
  let bandWidth := if sma ≠ 0 then (upperBand - lowerBand) / sma else 0
  { Timestamp := ts, UpperBand := upperBand, MiddleBand := sma
    LowerBand := lowerBand, BandWidth := bandWidth }

/-- Inner loop of the legacy Bollinger computation: collect the extracted
prices of a window, failing on the first extraction error (wrapped with its
absolute index). -/
def collectPricesFrom (priceType : PriceType) :
    List (List GoStr) → ℕ → List ℝ × Option GoErr
  | [], _ => ([], none)
  | c :: rest, base =>
    match extractPrice c priceType with
    | (_, some e) => ([], some (.wrapIndex base e))
    | (v, none) =>
      match collectPricesFrom priceType rest (base + 1) with
      | (_, some e) => ([], some e)
      | (vs, none) => (v :: vs, none)

/-- Outer loop of the legacy Bollinger computation, one window per
iteration starting at drop-index `j` with `k` windows remaining. -/
def bbLoopStr (dataset : List (List GoStr)) (priceType : PriceType) (period : ℤ)
    (multiplier : ℝ) (p : ℕ) : ℕ → ℕ → List BollingerBands × Option GoErr
  | _, 0 => ([], none)
  | j, k + 1 =>
    match collectPricesFrom priceType ((dataset.drop j).take p) j with
    | (_, some e) => ([], some e)
    | (prices, none) =>
      match bbLoopStr dataset priceType period multiplier p (j + 1) k with
      | (_, some e) => ([], some e)
      | (rs, none) =>
        (mkBBPoint ((dataset.getD (j + p - 1) []).getD 0 GoStr.zero)
          prices period multiplier :: rs, none)

/-- `CalculateBollingerBands` (the legacy `[][]string` variant, the one
present in the sources): one band triple per eligible window. -/
def CalculateBollingerBandsStr (dataset : List (List GoStr)) (period : ℤ)
    (multiplier : ℝ) (priceType : PriceType) : List BollingerBands × Option GoErr :=
  if dataset.length = 0 then ([], some .emptyDataset)
  else if period ≤ 0 then ([], some .nonPositivePeriod)
  else if (dataset.length : ℤ) < period then
    ([], some (.periodGTLen period dataset.length))
  else if multiplier ≤ 0 then ([], some .nonPositiveMultiplier)
  else
    let p := period.toNat
    bbLoopStr dataset priceType period multiplier p 0 (dataset.length - p + 1)

/-- Modelled from the spec: the `[]OHLCV` variant of
`CalculateBollingerBands` called by `ComprehensiveAnalysis` is not among
the source files (only the legacy `[][]string` variant is); following
spec §4.3 and mirroring the legacy variant with `OHLCV.ExtractPrice`
(which cannot fail) in place of string parsing. -/
def CalculateBollingerBands (dataset : List OHLCV) (period : ℤ) (multiplier : ℝ)
    (priceType : PriceType) : List BollingerBands × Option GoErr :=
  if dataset.length = 0 then ([], some .emptyDataset)
  else if period ≤ 0 then ([], some .nonPositivePeriod)
  else if (dataset.length : ℤ) < period then
    ([], some (.periodGTLen period dataset.length))
  else if multiplier ≤ 0 then ([], some .nonPositiveMultiplier)
  else
    let p := period.toNat
    ((List.range (dataset.length - p + 1)).map (fun j =>
      mkBBPoint (formatTime ((dataset.getD (j + p - 1) OHLCV.zero).Timestamp))
        (((dataset.drop j).take p).map (fun c => c.ExtractPrice priceType))
        period multiplier), none)

/-- Modelled from the spec: `GetLatestBollingerBands` (`[]OHLCV` variant),
returning the most recent band triple. -/
def GetLatestBollingerBands (dataset : List OHLCV) (period : ℤ) (multiplier : ℝ)
    (priceType : PriceType) : BollingerBands × Option GoErr :=
  match CalculateBollingerBands dataset period multiplier priceType with
  | (_, some e) => (BollingerBands.zero, some e)
  | (bands, none) =>
    if bands.length = 0 then (BollingerBands.zero, some .noResults)
    else (bands.getD (bands.length - 1) BollingerBands.zero, none)

/-- Modelled from the spec: `GetPricePosition` (`[]OHLCV` variant).  The
latest close price is classified against the latest band triple with a
relative tolerance (spec §4.3: `> upper` above, `< lower` below, within
`upper*(1-t)` / `lower*(1+t)` touching, else between). -/
def GetPricePosition (dataset : List OHLCV) (period : ℤ) (multiplier : ℝ)
    (priceType : PriceType) (tolerance : ℝ) : BollingerPosition × Option GoErr :=
  if dataset.length = 0 then ("", some .emptyDataset)
  else
    match GetLatestBollingerBands dataset period multiplier priceType with
    | (_, some e) => ("", some e)
    | (bands, none) =>
      let currentPrice := (dataset.getD (dataset.length - 1) OHLCV.zero).ExtractPrice ClosePrice
      let upperTolerance := bands.UpperBand * (1 - tolerance)
      let lowerTolerance := bands.LowerBand * (1 + tolerance)
      if currentPrice > bands.UpperBand then (AboveUpperBand, none)
      else if currentPrice < bands.LowerBand then (BelowLowerBand, none)
      else if currentPrice ≥ upperTolerance then (TouchingUpper, none)
      else if currentPrice ≤ lowerTolerance then (TouchingLower, none)
      else (BetweenBands, none)

/-- Modelled from the spec: `BollingerSqueeze` (`[]OHLCV` variant).
Squeeze when the most recent band width is below 70% of the mean width
over the last `lookback` points; fails when fewer points exist. -/
def BollingerSqueeze (dataset : List OHLCV) (period : ℤ) (multiplier : ℝ)
    (priceType : PriceType) (lookback : ℤ) : Bool × Option GoErr :=
  match CalculateBollingerBands dataset period multiplier priceType with
  | (_, some e) => (false, some e)
  | (bands, none) =>
    if (bands.length : ℤ) < lookback then (false, some .squeezeInsufficient)
    else
      let recentBands := bands.drop (bands.length - lookback.toNat)
      let totalWidth := (recentBands.map (fun b => b.BandWidth)).sum
      let avgWidth := totalWidth / (lookback : ℝ)
      let currentWidth := (bands.getD (bands.length - 1) BollingerBands.zero).BandWidth
      (decide (currentWidth < avgWidth * 0.7), none)

/-- Modelled from the spec: `BollingerBreakout` (`[]OHLCV` variant).
Compares the position on the full series against the position with the
last bar removed (2% tolerance); transitions from between/touching into
above/below are bullish/bearish breakouts. -/
def BollingerBreakout (dataset : List OHLCV) (period : ℤ) (multiplier : ℝ)
    (priceType : PriceType) : String × Option GoErr :=
  if dataset.length < 2 then ("insufficient_data", none)
  else
    match GetPricePosition dataset period multiplier priceType 0.02 with
    | (_, some e) => ("", some e)
    | (currentPos, none) =>
      let prevDataset := dataset.dropLast
      if (prevDataset.length : ℤ) < period then ("insufficient_data", none)
      else
        match GetPricePosition prevDataset period multiplier priceType 0.02 with
        | (_, some e) => ("", some e)
        | (prevPos, none) =>
          if prevPos = BetweenBands ∧ currentPos = AboveUpperBand then
            ("bullish_breakout", none)
          else if prevPos = BetweenBands ∧ currentPos = BelowLowerBand then
            ("bearish_breakout", none)
          else if prevPos = TouchingUpper ∧ currentPos = AboveUpperBand then
            ("bullish_breakout", none)
          else if prevPos = TouchingLower ∧ currentPos = BelowLowerBand then
            ("bearish_breakout", none)
          else ("no_breakout", none)

/-- `BollingerStrategy` aggregates the Bollinger analysis. -/
structure BollingerStrategy where
  Position : BollingerPosition
  Breakout : String
  Squeeze : Bool
  BandWidth : ℝ
  Signal : String

/-- The Go zero value of `BollingerStrategy`. -/
def BollingerStrategy.zero : BollingerStrategy := ⟨"", "", false, 0, ""⟩

/-- Modelled from the spec: `AnalyzeBollingerStrategy` (`[]OHLCV`
variant): position (2% tolerance), breakout, squeeze (lookback 10), latest
band width, and the strategy-fusion signal of spec §4.3. -/
def AnalyzeBollingerStrategy (dataset : List OHLCV) (period : ℤ) (multiplier : ℝ)
    (priceType : PriceType) : BollingerStrategy × Option GoErr :=
  match GetPricePosition dataset period multiplier priceType 0.02 with
  | (_, some e) => (BollingerStrategy.zero, some e)
  | (position, none) =>
    match BollingerBreakout dataset period multiplier priceType with
    | (_, some e) => (BollingerStrategy.zero, some e)
    | (breakout, none) =>
      match BollingerSqueeze dataset period multiplier priceType 10 with
      | (_, some e) => (BollingerStrategy.zero, some e)
      | (squeeze, none) =>
        match GetLatestBollingerBands dataset period multiplier priceType with
        | (_, some e) => (BollingerStrategy.zero, some e)
        | (bands, none) =>
          let signal :=
            if breakout = "bullish_breakout" ∧ ¬squeeze then "strong_buy"
            else if breakout = "bearish_breakout" ∧ ¬squeeze then "strong_sell"
            else if position = BelowLowerBand ∧ squeeze then "buy"
            else if position = AboveUpperBand ∧ squeeze then "sell"
            else if squeeze ∧ position = BetweenBands then "wait_for_breakout"
            else if position = TouchingLower then "buy_signal"
            else if position = TouchingUpper then "sell_signal"
            else "hold"
          ({ Position := position, Breakout := breakout, Squeeze := squeeze
             BandWidth := bands.BandWidth, Signal := signal }, none)

/-- `VolumeResult` represents one volume-analysis point. -/
structure VolumeResult where
  Timestamp : GoStr
  Volume : ℝ
  VMA : ℝ
  OBV : ℝ
  VPT : ℝ
  VROC : ℝ
  ADL : ℝ

/-- The Go zero value of `VolumeResult`. -/
def VolumeResult.zero : VolumeResult := ⟨GoStr.zero, 0, 0, 0, 0, 0, 0⟩

/-- `VolumeSignal` represents a volume-based trading signal. -/
structure VolumeSignal where
  Type_ : String
  Strength : String
  Trend : String
  Confidence : ℝ

/-- The Go zero value of `VolumeSignal`. -/
def VolumeSignal.zero : VolumeSignal := ⟨"", "", "", 0⟩

/-- The main loop of `CalculateVolumeAnalysis`: one `VolumeResult` per bar
from `maxPeriod` on, threading the running OBV/VPT/ADL accumulators.  The
first argument of the recursion is the number of remaining bars, the
second the current index `i`. -/
def volLoop (volumes closes highs lows : List ℝ) (times : List ℤ)
    (vmaP vrocP : ℕ) : ℕ → ℕ → ℝ → ℝ → ℝ → List VolumeResult
  | 0, _, _, _, _ => []
  | k + 1, i, obv, vpt, adl =>
    let vma := ((volumes.drop (i + 1 - vmaP)).take vmaP).sum / (vmaP : ℝ)
    let obv' :=
      if 0 < i then
        if closes.getD i 0 > closes.getD (i - 1) 0 then obv + volumes.getD i 0
        else if closes.getD i 0 < closes.getD (i - 1) 0 then obv - volumes.getD i 0
        else obv
      else obv
    let vpt' :=
      if 0 < i ∧ closes.getD (i - 1) 0 ≠ 0 then
        vpt + volumes.getD i 0 *
          ((closes.getD i 0 - closes.getD (i - 1) 0) / closes.getD (i - 1) 0)
      else vpt
    let vroc :=
      if vrocP ≤ i ∧ volumes.getD (i - vrocP) 0 ≠ 0 then
        (volumes.getD i 0 - volumes.getD (i - vrocP) 0) / volumes.getD (i - vrocP) 0 * 100
      else 0
    let adl' :=
      if highs.getD i 0 ≠ lows.getD i 0 then
        adl + (closes.getD i 0 - lows.getD i 0 - (highs.getD i 0 - closes.getD i 0)) /
          (highs.getD i 0 - lows.getD i 0) * volumes.getD i 0
      else adl
    { Timestamp := formatTime (times.getD i 0), Volume := volumes.getD i 0
      VMA := vma, OBV := obv', VPT := vpt', VROC := vroc, ADL := adl' } ::
      volLoop volumes closes highs lows times vmaP vrocP k (i + 1) obv' vpt' adl'

/-- The `maxPeriod` computation of `CalculateVolumeAnalysis`: the larger
of the two window parameters. -/
def goMax (vmaPeriod vrocPeriod : ℤ) : ℤ :=
  if vrocPeriod > vmaPeriod then vrocPeriod else vmaPeriod

/-- `CalculateVolumeAnalysis` performs the comprehensive volume analysis
(VMA, OBV, VPT, VROC, ADL), with the three running accumulators seeded
from the first bar's volume.  (The Go locals `maxPeriod`, the extracted
arrays and the seed are written inline.) -/
def CalculateVolumeAnalysis (dataset : List OHLCV) (vmaPeriod vrocPeriod : ℤ) :
    List VolumeResult × Option GoErr :=
  if dataset.length = 0 then ([], some .emptyDataset)
  else if vmaPeriod ≤ 0 ∨ vrocPeriod ≤ 0 then ([], some .nonPositivePeriods)
  else if (dataset.length : ℤ) ≤ goMax vmaPeriod vrocPeriod then
    ([], some (.volumeInsufficient (goMax vmaPeriod vrocPeriod)))
  else
    (volLoop (dataset.map (fun c => c.Volume)) (dataset.map (fun c => c.Close))
      (dataset.map (fun c => c.High)) (dataset.map (fun c => c.Low))
      (dataset.map (fun c => c.Timestamp)) vmaPeriod.toNat vrocPeriod.toNat
      (dataset.length - (goMax vmaPeriod vrocPeriod).toNat)
      (goMax vmaPeriod vrocPeriod).toNat
      ((dataset.map (fun c => c.Volume)).getD 0 0)
      ((dataset.map (fun c => c.Volume)).getD 0 0)
      ((dataset.map (fun c => c.Volume)).getD 0 0), none)

/-- `GetLatestVolumeAnalysis` returns the most recent volume analysis. -/
def GetLatestVolumeAnalysis (dataset : List OHLCV) (vmaPeriod vrocPeriod : ℤ) :
    VolumeResult × Option GoErr :=
  match CalculateVolumeAnalysis dataset vmaPeriod vrocPeriod with
  | (_, some e) => (VolumeResult.zero, some e)
  | (results, none) =>
    if results.length = 0 then (VolumeResult.zero, some .noResults)
    else (results.getD (results.length - 1) VolumeResult.zero, none)

/-- `DetectVolumeBreakout` identifies unusual volume activity: the ratio of
the latest volume to the latest VMA is tiered against the caller's
multiplier (`≥ 3x` extreme/0.9, `≥ 2x` strong/0.8, `≥ 1x` moderate/0.6,
else weak/0.3), and a ratio at or above the multiplier is a `breakout`. -/
def DetectVolumeBreakout (dataset : List OHLCV) (vmaPeriod : ℤ) (multiplier : ℝ) :
    VolumeSignal × Option GoErr :=
  match GetLatestVolumeAnalysis dataset vmaPeriod 5 with
  | (_, some e) => (VolumeSignal.zero, some e)
  | (latest, none) =>
    let volumeRatio := latest.Volume / latest.VMA
    let strength :=
      if volumeRatio ≥ multiplier * 3 then ("extreme", (0.9 : ℝ))
      else if volumeRatio ≥ multiplier * 2 then ("strong", (0.8 : ℝ))
      else if volumeRatio ≥ multiplier then ("moderate", (0.6 : ℝ))
      else ("weak", (0.3 : ℝ))
    if volumeRatio ≥ multiplier then
      let trend :=
        if 2 ≤ dataset.length then
          let currentClose := (dataset.getD (dataset.length - 1) OHLCV.zero).Close
          let prevClose := (dataset.getD (dataset.length - 2) OHLCV.zero).Close
          if currentClose > prevClose ∧ latest.OBV > 0 then "bullish"
          else if currentClose < prevClose then "bearish"
          else "neutral"
        else ""
      ({ Type_ := "breakout", Strength := strength.1, Trend := trend
         Confidence := strength.2 }, none)
    else
      ({ Type_ := "normal", Strength := strength.1, Trend := "neutral"
         Confidence := strength.2 }, none)

/-- `DetectAccumulationDistribution` runs an ordinary least-squares
regression of the ADL against a 0-based time index over the lookback
window (raised to a minimum of 5) and classifies the slope. -/
def DetectAccumulationDistribution (dataset : List OHLCV) (lookback : ℤ) :
    VolumeSignal × Option GoErr :=
  let lb := if lookback < 5 then (5 : ℤ) else lookback
  match CalculateVolumeAnalysis dataset 10 5 with
  | (_, some e) => (VolumeSignal.zero, some e)
  | (results, none) =>
    if (results.length : ℤ) < lb then
      ({ Type_ := "insufficient_data", Strength := "", Trend := "", Confidence := 0 }, none)
    else
      let recent := results.drop (results.length - lb.toNat)
      let idx := List.range recent.length
      let adlSum := (recent.map (fun r => r.ADL)).sum
      let timeSum := (idx.map (fun i => (i : ℝ))).sum
      let adlTimeSum := (List.zipWith (fun i (r : VolumeResult) => r.ADL * (i : ℝ))
        idx recent).sum
      let timeSquareSum := (idx.map (fun i => (i : ℝ) * (i : ℝ))).sum
      let n := (recent.length : ℝ)
      let slope := (n * adlTimeSum - timeSum * adlSum) /
        (n * timeSquareSum - timeSum * timeSum)
      if slope > 1000 then
        ({ Type_ := "accumulation", Strength := "strong", Trend := "bullish"
           Confidence := 0.8 }, none)
      else if slope > 100 then
        ({ Type_ := "accumulation", Strength := "moderate", Trend := "bullish"
           Confidence := 0.6 }, none)
      else if slope < -1000 then
        ({ Type_ := "distribution", Strength := "strong", Trend := "bearish"
           Confidence := 0.8 }, none)
      else if slope < -100 then
        ({ Type_ := "distribution", Strength := "moderate", Trend := "bearish"
           Confidence := 0.6 }, none)
      else
        ({ Type_ := "neutral", Strength := "weak", Trend := "neutral"
           Confidence := 0.3 }, none)

/-- `VolumeStrategy` aggregates the volume analysis. -/
structure VolumeStrategy where
  Current : VolumeResult
  BreakoutSignal : VolumeSignal
  AccumulationSignal : VolumeSignal
  VolumeRatio : ℝ
  OBVTrend : String
  Signal : String

/-- The Go zero value of `VolumeStrategy`. -/
def VolumeStrategy.zero : VolumeStrategy :=
  ⟨VolumeResult.zero, VolumeSignal.zero, VolumeSignal.zero, 0, "", ""⟩

/-- `AnalyzeVolumeStrategy` provides the complete volume analysis: latest
point, breakout detection (multiplier 2.0), accumulation/distribution
detection (lookback 10), volume ratio, three-point OBV trend and the
trading signal (`low_volume_alert` when the ratio drops below 0.5). -/
def AnalyzeVolumeStrategy (dataset : List OHLCV) (vmaPeriod vrocPeriod : ℤ) :
    VolumeStrategy × Option GoErr :=
  match GetLatestVolumeAnalysis dataset vmaPeriod vrocPeriod with
  | (_, some e) => (VolumeStrategy.zero, some e)
  | (current, none) =>
    match DetectVolumeBreakout dataset vmaPeriod 2 with
    | (_, some e) => (VolumeStrategy.zero, some e)
    | (breakoutSignal, none) =>
      match DetectAccumulationDistribution dataset 10 with
      | (_, some e) => (VolumeStrategy.zero, some e)
      | (accumSignal, none) =>
        let volumeRatio := current.Volume / current.VMA
        let results := (CalculateVolumeAnalysis dataset vmaPeriod vrocPeriod).1
        let obvTrend :=
          if 3 ≤ results.length then
            let recent := results.drop (results.length - 3)
            let o0 := (recent.getD 0 VolumeResult.zero).OBV
            let o1 := (recent.getD 1 VolumeResult.zero).OBV
            let o2 := (recent.getD 2 VolumeResult.zero).OBV
            if o2 > o1 ∧ o1 > o0 then "rising"
            else if o2 < o1 ∧ o1 < o0 then "falling"
            else "sideways"
          else "sideways"
        let signal :=
          if breakoutSignal.Type_ = "breakout" ∧ breakoutSignal.Trend = "bullish" ∧
              accumSignal.Type_ = "accumulation" then "strong_buy"
          else if breakoutSignal.Type_ = "breakout" ∧ breakoutSignal.Trend = "bearish" ∧
              accumSignal.Type_ = "distribution" then "strong_sell"
          else if breakoutSignal.Type_ = "breakout" ∧ breakoutSignal.Trend = "bullish" then
            "buy"
          else if breakoutSignal.Type_ = "breakout" ∧ breakoutSignal.Trend = "bearish" then
            "sell"
          else if accumSignal.Type_ = "accumulation" ∧ obvTrend = "rising" then "accumulate"
          else if accumSignal.Type_ = "distribution" ∧ obvTrend = "falling" then "distribute"
          else if volumeRatio < 0.5 then "low_volume_alert"
          else "hold"
        ({ Current := current, BreakoutSignal := breakoutSignal
           AccumulationSignal := accumSignal, VolumeRatio := volumeRatio
           OBVTrend := obvTrend, Signal := signal }, none)

/-- Go `int64(f)` conversion: truncation toward zero. -/
def truncToInt (x : ℝ) : ℤ := if x < 0 then -⌊-x⌋ else ⌊x⌋

/-- The field parses of one conversion-loop iteration (the code after the
timestamp has been determined): open/close/high/low/volume in source
order, each wrapping its error with the candle index. -/
def convertCandleFields (i : ℕ) (candle : List GoStr) (timestamp : ℤ) :
    OHLCV × Option GoErr :=
  match (candle.getD 1 GoStr.zero).asFloat with
  | none => (OHLCV.zero, some (.wrapIndex i .invalidOpenPrice))
  | some op =>
    match (candle.getD 2 GoStr.zero).asFloat with
    | none => (OHLCV.zero, some (.wrapIndex i .invalidClosePrice))
    | some cl =>
      match (candle.getD 3 GoStr.zero).asFloat with
      | none => (OHLCV.zero, some (.wrapIndex i .invalidHighPrice))
      | some hi =>
        match (candle.getD 4 GoStr.zero).asFloat with
        | none => (OHLCV.zero, some (.wrapIndex i .invalidLowPrice))
        | some lo =>
          match (candle.getD 5 GoStr.zero).asFloat with
          | none => (OHLCV.zero, some (.wrapIndex i .invalidVolume))
          | some vol =>
            ({ Timestamp := timestamp, Open_ := op, Close := cl, High := hi
               Low := lo, Volume := vol }, none)

/-- One iteration of the conversion loop of `ConvertStringDataToOHLCV`:
field-count check, timestamp parse (unix float first, RFC3339 fallback),
then the field parses. -/
def convertCandle (i : ℕ) (candle : List GoStr) : OHLCV × Option GoErr :=
  if candle.length < 6 then (OHLCV.zero, some (.invalidCandle i candle.length))
  else
    match (candle.getD 0 GoStr.zero).asFloat with
    | some unixTime => convertCandleFields i candle (truncToInt unixTime)
    | none =>
      match (candle.getD 0 GoStr.zero).asTime with
      | some t => convertCandleFields i candle t
      | none => (OHLCV.zero, some (.invalidTimestamp i))

/-- The conversion loop over all candles, indexed from `i`, returning the
first error if any candle is malformed. -/
def convLoop : ℕ → List (List GoStr) → List OHLCV × Option GoErr
  | _, [] => ([], none)
  | i, c :: rest =>
    match convertCandle i c with
    | (_, some e) => ([], some e)
    | (bar, none) =>
      match convLoop (i + 1) rest with
      | (_, some e) => ([], some e)
      | (bars, none) => (bar :: bars, none)

/-- `ConvertStringDataToOHLCV` converts the legacy `[][]string` candle
format to the `[]OHLCV` format. -/
def ConvertStringDataToOHLCV (stringData : List (List GoStr)) :
    List OHLCV × Option GoErr :=
  if stringData.length = 0 then ([], some .emptyDataset)
  else convLoop 0 stringData

/-- `CombinedTechnicalAnalysis` integrates SMA, Bollinger Bands and RSI. -/
structure CombinedTechnicalAnalysis where
  SMASignal : String
  BollingerSignal : String
  RSISignal : String
  FinalSignal : String
  Confidence : String
  RiskLevel : String

/-- The Go zero value of `CombinedTechnicalAnalysis`. -/
def CombinedTechnicalAnalysis.zero : CombinedTechnicalAnalysis :=
  ⟨"", "", "", "", "", ""⟩

/-- Whether a signal tag counts as a bullish vote in the fusion layer. -/
def isBullishTag (s : String) : Bool :=
  s == "strong_buy" || s == "buy" || s == "bullish" || s == "strong_bullish"

/-- Whether a signal tag counts as a bearish vote in the fusion layer. -/
def isBearishTag (s : String) : Bool :=
  s == "strong_sell" || s == "sell" || s == "bearish" || s == "strong_bearish"

/-- `ComprehensiveAnalysis` combines all indicators.  Faithful to the Go
source, the errors of every constituent engine call are discarded with the
blank identifier (`v, _ := ...`), so each engine contributes its returned
value — the Go zero value whenever the engine failed — and the fusion
itself always returns a nil error. -/
def ComprehensiveAnalysis (dataset : List OHLCV) (smaPeriod bbPeriod rsiPeriod : ℤ)
    (bbMultiplier : ℝ) (priceType : PriceType) :
    CombinedTechnicalAnalysis × Option GoErr :=
  let isAboveSMA := (IsPriceAboveSMA dataset smaPeriod priceType).1
  let smaCross := (SMACrossover dataset (smaPeriod / 2) smaPeriod priceType).1
  let smaSignal :=
    if isAboveSMA = true ∧ smaCross = "bullish_crossover" then "strong_bullish"
    else if isAboveSMA = false ∧ smaCross = "bearish_crossover" then "strong_bearish"
    else if isAboveSMA = true then "bullish"
    else "bearish"
  let bbStrategy := (AnalyzeBollingerStrategy dataset bbPeriod bbMultiplier priceType).1
  let rsiStrategy := (AnalyzeRSIStrategy dataset rsiPeriod priceType).1
  let signals := [smaSignal, bbStrategy.Signal, rsiStrategy.Signal]
  let bullishCount := (signals.filter isBullishTag).length
  let bearishCount := (signals.filter isBearishTag).length
  let decision :=
    if 3 ≤ bullishCount then ("STRONG BUY", "HIGH", "LOW")
    else if 2 ≤ bullishCount then ("BUY", "MEDIUM", "LOW")
    else if 3 ≤ bearishCount then ("STRONG SELL", "HIGH", "HIGH")
    else if 2 ≤ bearishCount then ("SELL", "MEDIUM", "MEDIUM")
    else if bbStrategy.Signal = "wait_for_breakout" then ("WAIT", "HIGH", "LOW")
    else ("HOLD", "LOW", "MEDIUM")
  let adjusted :=
    if rsiStrategy.Condition = RSIExtremeHigh ∧ bbStrategy.Position = AboveUpperBand then
      ("STRONG SELL", "HIGH", "HIGH")
    else if rsiStrategy.Condition = RSIExtremeLow ∧ bbStrategy.Position = BelowLowerBand then
      ("STRONG BUY", "HIGH", "LOW")
    else decision
  ({ SMASignal := smaSignal, BollingerSignal := bbStrategy.Signal
     RSISignal := rsiStrategy.Signal, FinalSignal := adjusted.1
     Confidence := adjusted.2.1, RiskLevel := adjusted.2.2 }, none)

/-- `UltimateMemecoinAnalysis` combines all indicators with volume
confirmation. -/
structure UltimateMemecoinAnalysis where
  Technical : CombinedTechnicalAnalysis
  Volume : VolumeStrategy
  FinalSignal : String
  Confidence : String
  RiskLevel : String
  RugPullRisk : String
  VolumeConfirm : Bool

/-- The Go zero value of `UltimateMemecoinAnalysis`. -/
def UltimateMemecoinAnalysis.zero : UltimateMemecoinAnalysis :=
  ⟨CombinedTechnicalAnalysis.zero, VolumeStrategy.zero, "", "", "", "", false⟩

/-- `UltimateAnalysis` runs `ComprehensiveAnalysis` (close price) and
`AnalyzeVolumeStrategy` (VROC period 5), propagating either error with a
zero-value result, then applies volume confirmation, rug-pull-risk
grading, the confirmation-based confidence/signal adjustment, and finally
the unconditional `low_volume_alert` → SUSPICIOUS override. -/
def UltimateAnalysis (dataset : List OHLCV)
    (smaPeriod bbPeriod rsiPeriod vmaPeriod : ℤ) (bbMultiplier : ℝ) :
    UltimateMemecoinAnalysis × Option GoErr :=
  match ComprehensiveAnalysis dataset smaPeriod bbPeriod rsiPeriod bbMultiplier ClosePrice with
  | (_, some e) => (UltimateMemecoinAnalysis.zero, some e)
  | (technical, none) =>
    match AnalyzeVolumeStrategy dataset vmaPeriod 5 with
    | (_, some e) => (UltimateMemecoinAnalysis.zero, some e)
    | (volume, none) =>
      let volumeConfirm :=
        if (technical.FinalSignal = "STRONG BUY" ∨ technical.FinalSignal = "BUY") ∧
            (volume.Signal = "strong_buy" ∨ volume.Signal = "buy" ∨
              volume.Signal = "accumulate") then true
        else if (technical.FinalSignal = "STRONG SELL" ∨ technical.FinalSignal = "SELL") ∧
            (volume.Signal = "strong_sell" ∨ volume.Signal = "sell" ∨
              volume.Signal = "distribute") then true
        else if technical.FinalSignal = "WAIT" ∧ volume.VolumeRatio < 1 then true
        else false
      let rugPullRisk :=
        if volume.Signal = "strong_sell" ∧ volume.AccumulationSignal.Type_ = "distribution" ∧
            technical.RSISignal = "strong_sell" ∧ volume.VolumeRatio > 3 then "extreme"
        else if volume.AccumulationSignal.Type_ = "distribution" ∧
            technical.FinalSignal = "STRONG SELL" then "high"
        else if volume.Signal = "distribute" ∨
            (volume.VolumeRatio > 2 ∧ technical.FinalSignal = "SELL") then "medium"
        else "low"
      let adjusted :=
        if volumeConfirm then
          if technical.Confidence = "MEDIUM" then (technical.FinalSignal, "HIGH")
          else if technical.Confidence = "LOW" then (technical.FinalSignal, "MEDIUM")
          else (technical.FinalSignal, technical.Confidence)
        else
          if technical.Confidence = "HIGH" then
            (if technical.FinalSignal = "STRONG BUY" then "BUY"
             else if technical.FinalSignal = "STRONG SELL" then "SELL"
             else technical.FinalSignal, "MEDIUM")
          else if technical.Confidence = "MEDIUM" then ("HOLD", "LOW")
          else (technical.FinalSignal, technical.Confidence)
      let special :=
        if volume.Signal = "low_volume_alert" then ("SUSPICIOUS", "LOW", "HIGH")
        else (adjusted.1, adjusted.2, technical.RiskLevel)
      ({ Technical := technical, Volume := volume, FinalSignal := special.1
         Confidence := special.2.1, RiskLevel := special.2.2
         RugPullRisk := rugPullRisk, VolumeConfirm := volumeConfirm }, none)


/-- The population standard deviation computed per window by the Bollinger
engine: square root of the mean (over `period`) squared deviation from the
window mean. -/
def bbStdDev (prices : List ℝ) (period : ℤ) : ℝ :=
  Real.sqrt ((prices.map (fun price =>
    (price - prices.sum / (period : ℝ)) * (price - prices.sum / (period : ℝ)))).sum /
    (period : ℝ))

/-! ## Concrete datasets used by the claim theorems, witnesses and
counterexamples -/

/-- Witness data for C4: three flat bars with closes 1, 2, 3. -/
def smaWitnessData : List OHLCV :=
  [⟨0, 1, 1, 1, 1, 10⟩, ⟨1, 2, 2, 2, 2, 10⟩, ⟨2, 3, 3, 3, 3, 10⟩]

/-- The spec §8 scenario series: six bars with strictly increasing closes
`[1, 2, 3, 4, 5, 6]` (all four prices equal per bar). -/
def rsiData : List OHLCV :=
  [⟨0, 1, 1, 1, 1, 10⟩, ⟨1, 2, 2, 2, 2, 10⟩, ⟨2, 3, 3, 3, 3, 10⟩,
   ⟨3, 4, 4, 4, 4, 10⟩, ⟨4, 5, 5, 5, 5, 10⟩, ⟨5, 6, 6, 6, 6, 10⟩]


/-- A legacy string candle field holding a numeric value. -/
def gs (x : ℝ) : GoStr := ⟨some x, none⟩

/-- Witness data for C8: two legacy string candles with prices 1 and 3. -/
def bbWitnessData : List (List GoStr) :=
  [[⟨none, some 0⟩, gs 1, gs 1, gs 1, gs 1, gs 10],
   [⟨none, some 1⟩, gs 3, gs 3, gs 3, gs 3, gs 10]]


/-- C3 data: seven bars with flat close 5; volumes 0 except the last bar's
100, making the latest volume exactly 5 times the latest 5-bar VMA (20). -/
def c3data : List OHLCV :=
  [⟨0, 5, 5, 5, 5, 0⟩, ⟨1, 5, 5, 5, 5, 0⟩, ⟨2, 5, 5, 5, 5, 0⟩, ⟨3, 5, 5, 5, 5, 0⟩,
   ⟨4, 5, 5, 5, 5, 0⟩, ⟨5, 5, 5, 5, 5, 0⟩, ⟨6, 5, 5, 5, 5, 100⟩]

/-- C6 counterexample data: constant volume 10 and constant close 5, but
ranged bars (high 6 ≠ low 5) whose money-flow multiplier is -1. -/
def c6cx : List OHLCV :=
  [⟨0, 5, 6, 5, 5, 10⟩, ⟨1, 5, 6, 5, 5, 10⟩, ⟨2, 5, 6, 5, 5, 10⟩]

/-- C6 witness data: three fully flat bars (all prices 5, volume 10). -/
def c6w : List OHLCV :=
  [⟨0, 5, 5, 5, 5, 10⟩, ⟨1, 5, 5, 5, 5, 10⟩, ⟨2, 5, 5, 5, 5, 10⟩]


/-- C9 witness data: eleven flat bars (price 5) with volume 100 except the
last bar's 10, so the latest volume ratio is 10/82 < 0.5. -/
def wc9 : List OHLCV :=
  [⟨0, 5, 5, 5, 5, 100⟩, ⟨1, 5, 5, 5, 5, 100⟩, ⟨2, 5, 5, 5, 5, 100⟩,
   ⟨3, 5, 5, 5, 5, 100⟩, ⟨4, 5, 5, 5, 5, 100⟩, ⟨5, 5, 5, 5, 5, 100⟩,
   ⟨6, 5, 5, 5, 5, 100⟩, ⟨7, 5, 5, 5, 5, 100⟩, ⟨8, 5, 5, 5, 5, 100⟩,
   ⟨9, 5, 5, 5, 5, 100⟩, ⟨10, 5, 5, 5, 5, 10⟩]

/-- C5 witness data: ten bars whose lows increase 1..10 (driving the
low-price RSI to the extreme-high sentinel) while every close (20) sits
above the period-1 low-price band. -/
def wc5 : List OHLCV :=
  [⟨0, 20, 20, 1, 20, 1⟩, ⟨1, 20, 20, 2, 20, 1⟩, ⟨2, 20, 20, 3, 20, 1⟩,
   ⟨3, 20, 20, 4, 20, 1⟩, ⟨4, 20, 20, 5, 20, 1⟩, ⟨5, 20, 20, 6, 20, 1⟩,
   ⟨6, 20, 20, 7, 20, 1⟩, ⟨7, 20, 20, 8, 20, 1⟩, ⟨8, 20, 20, 9, 20, 1⟩,
   ⟨9, 20, 20, 10, 20, 1⟩]

/-- `wc5` with its last bar removed (the previous-position series used by
the breakout detector). -/
def wc5p : List OHLCV :=
  [⟨0, 20, 20, 1, 20, 1⟩, ⟨1, 20, 20, 2, 20, 1⟩, ⟨2, 20, 20, 3, 20, 1⟩,
   ⟨3, 20, 20, 4, 20, 1⟩, ⟨4, 20, 20, 5, 20, 1⟩, ⟨5, 20, 20, 6, 20, 1⟩,
   ⟨6, 20, 20, 7, 20, 1⟩, ⟨7, 20, 20, 8, 20, 1⟩, ⟨8, 20, 20, 9, 20, 1⟩]

/-! ## Claim C4: shape and content of `CalculateSMA` (`[]OHLCV` variant) -/

/-- C4: for every non-empty series and `1 ≤ period ≤ len`, `CalculateSMA`
succeeds with exactly `len - period + 1` points; the `j`-th point (bar
`i = j + period - 1`) is the arithmetic mean of the selected price over
the window `[i-period+1, i]` and carries bar `i`'s formatted timestamp. -/
theorem calculateSMA_spec (dataset : List OHLCV) (period : ℤ) (priceType : PriceType)
    (h1 : 1 ≤ period) (h2 : period ≤ (dataset.length : ℤ)) :
    (CalculateSMA dataset period priceType).2 = none ∧
    (CalculateSMA dataset period priceType).1.length =
      dataset.length - period.toNat + 1 ∧
    ∀ j, (hj : j < (CalculateSMA dataset period priceType).1.length) →
      (CalculateSMA dataset period priceType).1[j].Value =
        (((dataset.drop j).take period.toNat).map
          (fun c => c.ExtractPrice priceType)).sum / (period : ℝ) ∧
      (CalculateSMA dataset period priceType).1[j].Timestamp =
        formatTime ((dataset.getD (j + period.toNat - 1) OHLCV.zero).Timestamp) := by
  have hl1 : 1 ≤ (dataset.length : ℤ) := le_trans h1 h2
  have hn0 : ¬ dataset.length = 0 := by omega
  have hp0 : ¬ period ≤ 0 := by omega
  have hlt : ¬ ((dataset.length : ℤ) < period) := not_lt.mpr h2
  simp only [CalculateSMA, if_neg hn0, if_neg hp0, if_neg hlt]
  refine ⟨trivial, by simp, ?_⟩
  intro j hj
  exact ⟨by simp, by simp⟩


/-- Witness for `calculateSMA_spec`: its hypotheses hold at period 2 over
`smaWitnessData`, and the conclusion follows. -/
theorem calculateSMA_spec_witness :
    (1 : ℤ) ≤ 2 ∧ (2 : ℤ) ≤ (smaWitnessData.length : ℤ) ∧
    ((CalculateSMA smaWitnessData 2 ClosePrice).2 = none ∧
      (CalculateSMA smaWitnessData 2 ClosePrice).1.length =
        smaWitnessData.length - (2 : ℤ).toNat + 1 ∧
      ∀ j, (hj : j < (CalculateSMA smaWitnessData 2 ClosePrice).1.length) →
        (CalculateSMA smaWitnessData 2 ClosePrice).1[j].Value =
          (((smaWitnessData.drop j).take (2 : ℤ).toNat).map
            (fun c => c.ExtractPrice ClosePrice)).sum / ((2 : ℤ) : ℝ) ∧
        (CalculateSMA smaWitnessData 2 ClosePrice).1[j].Timestamp =
          formatTime
            ((smaWitnessData.getD (j + (2 : ℤ).toNat - 1) OHLCV.zero).Timestamp)) :=
  ⟨by norm_num, by simp [smaWitnessData],
    calculateSMA_spec smaWitnessData 2 ClosePrice (by norm_num)
      (by simp [smaWitnessData])⟩

/-! ## Claim C7: the RSI oscillator is bounded in `[0, 100]` -/

/-- Every gain/loss pair produced by `rsiChanges` is componentwise
nonnegative. -/
theorem rsiChanges_nonneg (priceType : PriceType) :
    ∀ (ds : List OHLCV), ∀ x ∈ rsiChanges priceType ds, 0 ≤ x.1 ∧ 0 ≤ x.2.1
  | a :: b :: rest => by
    intro x hx
    rw [rsiChanges] at hx
    rcases List.mem_cons.mp hx with h | h
    · subst h
      by_cases hc : b.ExtractPrice priceType - a.ExtractPrice priceType > 0
      · rw [if_pos hc]
        exact ⟨le_of_lt hc, le_refl 0⟩
      · rw [if_neg hc]
        push_neg at hc
        exact ⟨le_refl 0, by simpa using hc⟩
    · exact rsiChanges_nonneg priceType (b :: rest) x h
  | [] => by intro x hx; simp [rsiChanges] at hx
  | [a] => by intro x hx; simp [rsiChanges] at hx

/-- The oscillator value computed from nonnegative smoothed averages lies
in `[0, 100]`. -/
theorem rsiValue_bounds (ag al : ℝ) (hag : 0 ≤ ag) (hal : 0 ≤ al) :
    0 ≤ rsiValue ag al ∧ rsiValue ag al ≤ 100 := by
  unfold rsiValue rsOf
  by_cases h : al = 0
  · rw [if_pos h]; norm_num
  · rw [if_neg h]
    have hpos : 0 < al := lt_of_le_of_ne hal (Ne.symm h)
    have hrs : 0 ≤ ag / al := div_nonneg hag hpos.le
    have h1 : (0 : ℝ) < 1 + ag / al := by linarith
    have hq1 : 100 / (1 + ag / al) ≤ 100 := div_le_self (by norm_num) (by linarith)
    have hq0 : 0 ≤ 100 / (1 + ag / al) := div_nonneg (by norm_num) h1.le
    constructor <;> linarith

/-- The Wilder smoothing loop keeps every emitted value in `[0, 100]`
given a positive period, nonnegative running averages and nonnegative
samples. -/
theorem rsiLoop_bounds (period : ℤ) (hp : 1 ≤ period) :
    ∀ (l : List (ℝ × ℝ × ℤ)) (ag al : ℝ), 0 ≤ ag → 0 ≤ al →
      (∀ x ∈ l, 0 ≤ x.1 ∧ 0 ≤ x.2.1) →
      ∀ r ∈ rsiLoop period ag al l, 0 ≤ r.Value ∧ r.Value ≤ 100
  | [], _, _, _, _, _ => by intro r hr; simp [rsiLoop] at hr
  | (g, l, t) :: rest, ag, al, hag, hal, hmem => by
    intro r hr
    have hP : (1 : ℝ) ≤ (period : ℝ) := by exact_mod_cast hp
    have hP0 : (0 : ℝ) < (period : ℝ) := by linarith
    have hg : 0 ≤ g := (hmem _ (List.mem_cons_self _ _)).1
    have hl : 0 ≤ l := (hmem _ (List.mem_cons_self _ _)).2
    have hag' : 0 ≤ (ag * ((period : ℝ) - 1) + g) / (period : ℝ) :=
      div_nonneg (by nlinarith) hP0.le
    have hal' : 0 ≤ (al * ((period : ℝ) - 1) + l) / (period : ℝ) :=
      div_nonneg (by nlinarith) hP0.le
    rw [rsiLoop] at hr
    rcases List.mem_cons.mp hr with h | h
    · subst h
      exact rsiValue_bounds _ _ hag' hal'
    · exact rsiLoop_bounds period hp rest _ _ hag' hal'
        (fun x hx => hmem x (List.mem_cons_of_mem _ hx)) r h

/-- `rsiChanges` produces one entry per consecutive pair of bars. -/
theorem rsiChanges_length (priceType : PriceType) :
    ∀ ds : List OHLCV, (rsiChanges priceType ds).length = ds.length - 1
  | [] => by simp [rsiChanges]
  | [a] => by simp [rsiChanges]
  | a :: b :: rest => by
    rw [rsiChanges]
    simp only [List.length_cons, rsiChanges_length priceType (b :: rest)]
    omega

/-- C7: every oscillator value emitted by `CalculateRSI` satisfies
`0 ≤ value ≤ 100`, for every input series and parameters. -/
theorem calculateRSI_bounded (dataset : List OHLCV) (period : ℤ)
    (priceType : PriceType) :
    ∀ r ∈ (CalculateRSI dataset period priceType).1,
      0 ≤ r.Value ∧ r.Value ≤ 100 := by
  intro r hr
  unfold CalculateRSI at hr
  split_ifs at hr with h0 h1 h2
  · simp at hr
  · simp at hr
  · simp at hr
  · have hlen : ¬ (((rsiChanges priceType dataset).length : ℤ) < period) := by
      rw [rsiChanges_length]
      omega
    rw [if_neg hlen] at hr
    have hp : 1 ≤ period := by omega
    have hP0 : (0 : ℝ) < (period : ℝ) := by exact_mod_cast hp
    have hgain : 0 ≤ (List.map (fun c : ℝ × ℝ × ℤ => c.1)
        (List.take period.toNat (rsiChanges priceType dataset))).sum := by
      apply List.sum_nonneg
      intro x hx
      rcases List.mem_map.mp hx with ⟨c, hc, rfl⟩
      exact (rsiChanges_nonneg priceType dataset c (List.take_subset _ _ hc)).1
    have hloss : 0 ≤ (List.map (fun c : ℝ × ℝ × ℤ => c.2.1)
        (List.take period.toNat (rsiChanges priceType dataset))).sum := by
      apply List.sum_nonneg
      intro x hx
      rcases List.mem_map.mp hx with ⟨c, hc, rfl⟩
      exact (rsiChanges_nonneg priceType dataset c (List.take_subset _ _ hc)).2
    rcases List.mem_cons.mp hr with h | h
    · subst h
      exact rsiValue_bounds _ _ (div_nonneg hgain hP0.le) (div_nonneg hloss hP0.le)
    · exact rsiLoop_bounds period hp _ _ _ (div_nonneg hgain hP0.le)
        (div_nonneg hloss hP0.le)
        (fun x hx => rsiChanges_nonneg priceType dataset x (List.drop_subset _ _ hx)) r h


/-- Evaluation: the change list of the scenario series is five unit gains. -/
theorem rsiChanges_eval :
    rsiChanges ClosePrice rsiData =
      [(1, 0, 1), (1, 0, 2), (1, 0, 3), (1, 0, 4), (1, 0, 5)] := by
  norm_num [rsiChanges, rsiData, OHLCV.ExtractPrice]

/-- Evaluation: the full RSI output on the scenario series with period 3:
every value is the sentinel value `10000/101`. -/
theorem calculateRSI_rsiData_eval :
    CalculateRSI rsiData 3 ClosePrice =
      ([⟨formatTime 3, 10000 / 101, "extreme_overbought"⟩,
        ⟨formatTime 4, 10000 / 101, "extreme_overbought"⟩,
        ⟨formatTime 5, 10000 / 101, "extreme_overbought"⟩], none) := by
  have h1 : rsiData.length = 6 := by simp [rsiData]
  have htn : (3 : ℤ).toNat = 3 := rfl
  norm_num [CalculateRSI, h1, rsiChanges_eval, htn]
  norm_num [rsiLoop, rsiValue, rsOf, getRSISignal]
  norm_num [rsiData]

/-- Witness for `calculateRSI_bounded`: a concrete member of the RSI output
on the spec scenario series, with its bounds. -/
theorem calculateRSI_bounded_witness :
    (⟨formatTime 3, 10000 / 101, "extreme_overbought"⟩ : RSIResult) ∈
      (CalculateRSI rsiData 3 ClosePrice).1 ∧
    (0 ≤ ((⟨formatTime 3, 10000 / 101, "extreme_overbought"⟩ : RSIResult)).Value ∧
      ((⟨formatTime 3, 10000 / 101, "extreme_overbought"⟩ : RSIResult)).Value ≤ 100) := by
  have hmem : (⟨formatTime 3, 10000 / 101, "extreme_overbought"⟩ : RSIResult) ∈
      (CalculateRSI rsiData 3 ClosePrice).1 := by
    rw [calculateRSI_rsiData_eval]
    exact List.mem_cons_self _ _
  exact ⟨hmem, calculateRSI_bounded rsiData 3 ClosePrice _ hmem⟩

/-! ## Claim C2: the RSI sentinel on the strictly increasing scenario -/

/-- Counterexample to C2 as stated: on the scenario series the first
emitted oscillator value is `10000/101 ≈ 99.0099`, not exactly `100`. -/
theorem rsi_first_value_ne_100 :
    ((CalculateRSI rsiData 3 ClosePrice).1.getD 0 RSIResult.zero).Value =
      10000 / 101 ∧
    ((CalculateRSI rsiData 3 ClosePrice).1.getD 0 RSIResult.zero).Value ≠ 100 := by
  rw [calculateRSI_rsiData_eval]
  norm_num

/-- C2 (amended): on the scenario series with period 3 the first seed
window has every loss equal to 0, hence `avgLoss = 0`, which triggers the
`RS = 100` sentinel; the emitted value is `100 - 100/(1+100) = 10000/101`
(≈ 99.0099), and is classified extreme-overbought — but it is not exactly
100. -/
theorem rsi_sentinel_on_scenario :
    ((rsiChanges ClosePrice rsiData).take 3).map (fun c => c.2.1) = [0, 0, 0] ∧
    (((rsiChanges ClosePrice rsiData).take 3).map (fun c => c.2.1)).sum / (3 : ℝ) = 0 ∧
    rsOf 1 0 = 100 ∧
    (CalculateRSI rsiData 3 ClosePrice).1.getD 0 RSIResult.zero =
      ⟨formatTime 3, 100 - 100 / (1 + 100), "extreme_overbought"⟩ ∧
    (100 : ℝ) - 100 / (1 + 100) = 10000 / 101 := by
  refine ⟨?_, ?_, ?_, ?_, by norm_num⟩
  · rw [rsiChanges_eval]; norm_num
  · rw [rsiChanges_eval]; norm_num
  · norm_num [rsOf]
  · rw [calculateRSI_rsiData_eval]; norm_num

/-! ## Claim C1: error propagation through the fusion layers -/

/-- `ComprehensiveAnalysis` always returns a nil error: every constituent
engine call discards its error with the blank identifier. -/
theorem comprehensiveAnalysis_snd (dataset : List OHLCV)
    (smaPeriod bbPeriod rsiPeriod : ℤ) (bbMultiplier : ℝ) (priceType : PriceType) :
    (ComprehensiveAnalysis dataset smaPeriod bbPeriod rsiPeriod bbMultiplier
      priceType).2 = none := rfl

/-- Counterexample to C1 as stated: on the empty series every constituent
engine fails (shown here for the SMA and RSI engines), yet
`ComprehensiveAnalysis` does not return that error — it returns a fused
result built from the engines' zero values, with a nil error. -/
theorem comprehensiveAnalysis_swallows_errors :
    (IsPriceAboveSMA ([] : List OHLCV) 4 ClosePrice).2 = some GoErr.emptyDataset ∧
    (AnalyzeRSIStrategy ([] : List OHLCV) 3 ClosePrice).2 = some GoErr.emptyDataset ∧
    ComprehensiveAnalysis ([] : List OHLCV) 4 1 3 2 ClosePrice =
      (⟨"bearish", "", "", "HOLD", "LOW", "MEDIUM"⟩, none) := by
  refine ⟨rfl, rfl, rfl⟩

/-- C1 (amended): `ComprehensiveAnalysis` never returns an error (it
silently substitutes zero values for failed engines), while
`UltimateAnalysis` propagates the first — and only possible — constituent
error, the volume engine's, paired with the zero-value result. -/
theorem c1_error_propagation (dataset : List OHLCV)
    (smaPeriod bbPeriod rsiPeriod vmaPeriod : ℤ) (bbMultiplier : ℝ)
    (priceType : PriceType) (e : GoErr) :
    (ComprehensiveAnalysis dataset smaPeriod bbPeriod rsiPeriod bbMultiplier
      priceType).2 = none ∧
    ((AnalyzeVolumeStrategy dataset vmaPeriod 5).2 = some e →
      UltimateAnalysis dataset smaPeriod bbPeriod rsiPeriod vmaPeriod bbMultiplier =
        (UltimateMemecoinAnalysis.zero, some e)) := by
  refine ⟨rfl, fun hv => ?_⟩
  have hC : ComprehensiveAnalysis dataset smaPeriod bbPeriod rsiPeriod bbMultiplier
      ClosePrice =
      ((ComprehensiveAnalysis dataset smaPeriod bbPeriod rsiPeriod bbMultiplier
        ClosePrice).1, none) := by
    rw [← comprehensiveAnalysis_snd dataset smaPeriod bbPeriod rsiPeriod bbMultiplier
      ClosePrice]
  have hV : AnalyzeVolumeStrategy dataset vmaPeriod 5 =
      ((AnalyzeVolumeStrategy dataset vmaPeriod 5).1, some e) := by
    rw [← hv]
  rw [UltimateAnalysis, hC, hV]

/-- Witness for `c1_error_propagation`: on the empty series the volume
engine fails with the empty-dataset error and `UltimateAnalysis` returns
exactly that error with the zero-value result. -/
theorem c1_error_propagation_witness :
    (AnalyzeVolumeStrategy ([] : List OHLCV) 5 5).2 = some GoErr.emptyDataset ∧
    (ComprehensiveAnalysis ([] : List OHLCV) 4 1 3 2 ClosePrice).2 = none ∧
    UltimateAnalysis ([] : List OHLCV) 4 1 3 5 2 =
      (UltimateMemecoinAnalysis.zero, some GoErr.emptyDataset) := by
  have h := c1_error_propagation [] 4 1 3 5 2 ClosePrice GoErr.emptyDataset
  exact ⟨rfl, h.1, h.2 rfl⟩

/-! ## Claim C8: the Bollinger band ordering invariant -/

/-- The band triple built from any window satisfies `upper ≥ middle ≥
lower` for a positive multiplier, and either equality holds exactly when
the window's population standard deviation is zero. -/
theorem mkBBPoint_invariant (ts : GoStr) (prices : List ℝ) (period : ℤ) (k : ℝ)
    (hk : 0 < k) :
    (mkBBPoint ts prices period k).MiddleBand ≤ (mkBBPoint ts prices period k).UpperBand ∧
    (mkBBPoint ts prices period k).LowerBand ≤ (mkBBPoint ts prices period k).MiddleBand ∧
    (((mkBBPoint ts prices period k).UpperBand = (mkBBPoint ts prices period k).MiddleBand ∨
      (mkBBPoint ts prices period k).MiddleBand = (mkBBPoint ts prices period k).LowerBand) ↔
      bbStdDev prices period = 0) := by
  have hs : 0 ≤ bbStdDev prices period := Real.sqrt_nonneg _
  have hks : 0 ≤ k * bbStdDev prices period := mul_nonneg hk.le hs
  unfold mkBBPoint
  unfold bbStdDev at *
  simp only []
  refine ⟨by linarith, by linarith, ?_⟩
  constructor
  · rintro (h | h)
    · have hz : k * Real.sqrt ((prices.map (fun price =>
          (price - prices.sum / (period : ℝ)) * (price - prices.sum / (period : ℝ)))).sum /
          (period : ℝ)) = 0 := by linarith
      rcases mul_eq_zero.mp hz with h0 | h0
      · exact absurd h0 (ne_of_gt hk)
      · exact h0
    · have hz : k * Real.sqrt ((prices.map (fun price =>
          (price - prices.sum / (period : ℝ)) * (price - prices.sum / (period : ℝ)))).sum /
          (period : ℝ)) = 0 := by linarith
      rcases mul_eq_zero.mp hz with h0 | h0
      · exact absurd h0 (ne_of_gt hk)
      · exact h0
  · intro h
    rw [h]
    left
    ring

/-- On success, the legacy Bollinger loop emits one `mkBBPoint` per window,
aligned with the window's extracted prices. -/
theorem bbLoopStr_success (dataset : List (List GoStr)) (priceType : PriceType)
    (period : ℤ) (multiplier : ℝ) (p : ℕ) :
    ∀ (n j : ℕ) (res : List BollingerBands),
      bbLoopStr dataset priceType period multiplier p j n = (res, none) →
      res.length = n ∧
      ∀ i, i < n →
        res.getD i BollingerBands.zero =
          mkBBPoint ((dataset.getD (j + i + p - 1) []).getD 0 GoStr.zero)
            ((collectPricesFrom priceType ((dataset.drop (j + i)).take p) (j + i)).1)
            period multiplier
  | 0, j, res => by
    intro h
    rw [bbLoopStr] at h
    cases h
    exact ⟨rfl, fun i hi => absurd hi (Nat.not_lt_zero i)⟩
  | n + 1, j, res => by
    intro h
    rw [bbLoopStr] at h
    cases hcp : collectPricesFrom priceType ((dataset.drop j).take p) j with
    | mk prices err =>
      rw [hcp] at h
      cases err with
      | some e => simp at h
      | none =>
        cases hrec : bbLoopStr dataset priceType period multiplier p (j + 1) n with
        | mk rs err2 =>
          rw [hrec] at h
          cases err2 with
          | some e => simp at h
          | none =>
            have hres : res = mkBBPoint ((dataset.getD (j + p - 1) []).getD 0 GoStr.zero)
                prices period multiplier :: rs := by
              cases h; rfl
            obtain ⟨hlen, hidx⟩ := bbLoopStr_success dataset priceType period multiplier p
              n (j + 1) rs hrec
            subst hres
            refine ⟨by simp [hlen], ?_⟩
            intro i hi
            cases i with
            | zero =>
              simp only [List.getD_cons_zero, Nat.add_zero]
              rw [hcp]
            | succ m =>
              simp only [List.getD_cons_succ]
              have := hidx m (by omega)
              rw [this]
              have harith : j + 1 + m = j + (m + 1) := by omega
              rw [harith]

/-- C8: for every point emitted by the (legacy, in-source)
`CalculateBollingerBands` with multiplier `k > 0`, upper ≥ middle ≥ lower,
and either equality holds iff the population standard deviation of that
point's own trailing window is 0. -/
theorem bollingerBands_invariant (dataset : List (List GoStr)) (period : ℤ)
    (multiplier : ℝ) (priceType : PriceType) (res : List BollingerBands)
    (hk : 0 < multiplier)
    (hres : CalculateBollingerBandsStr dataset period multiplier priceType =
      (res, none)) :
    ∀ i, i < res.length →
      (res.getD i BollingerBands.zero).MiddleBand ≤
        (res.getD i BollingerBands.zero).UpperBand ∧
      (res.getD i BollingerBands.zero).LowerBand ≤
        (res.getD i BollingerBands.zero).MiddleBand ∧
      (((res.getD i BollingerBands.zero).UpperBand =
          (res.getD i BollingerBands.zero).MiddleBand ∨
        (res.getD i BollingerBands.zero).MiddleBand =
          (res.getD i BollingerBands.zero).LowerBand) ↔
        bbStdDev ((collectPricesFrom priceType
          ((dataset.drop i).take period.toNat) i).1) period = 0) := by
  unfold CalculateBollingerBandsStr at hres
  split_ifs at hres with h0 h1 h2 h3
  · simp at hres
  · simp at hres
  · simp at hres
  · simp at hres
  · obtain ⟨hlen, hidx⟩ := bbLoopStr_success dataset priceType period multiplier
      period.toNat _ 0 res hres
    intro i hi
    have hin : i < dataset.length - period.toNat + 1 := by omega
    have heq := hidx i hin
    simp only [Nat.zero_add] at heq
    rw [heq]
    exact mkBBPoint_invariant _ _ period multiplier hk

/-- Evaluation for the C8 witness: bands on `bbWitnessData` with period 2
and multiplier 2: middle 2, standard deviation 1, bands 4/2/0. -/
theorem calculateBB_bbw :
    CalculateBollingerBandsStr bbWitnessData 2 2 ClosePrice =
      ([⟨⟨none, some 1⟩, 4, 2, 0, 2⟩], none) := by
  have htn : (2 : ℤ).toNat = 2 := rfl
  norm_num [CalculateBollingerBandsStr, bbWitnessData, gs, htn, bbLoopStr,
    collectPricesFrom, extractPrice, mkBBPoint]

/-- Witness for `bollingerBands_invariant` at the concrete two-candle
input. -/
theorem bollingerBands_invariant_witness :
    (0 : ℝ) < 2 ∧
    CalculateBollingerBandsStr bbWitnessData 2 2 ClosePrice =
      ([⟨⟨none, some 1⟩, 4, 2, 0, 2⟩], none) ∧
    ∀ i, i < ([(⟨⟨none, some 1⟩, 4, 2, 0, 2⟩ : BollingerBands)]).length →
      (List.getD [(⟨⟨none, some 1⟩, 4, 2, 0, 2⟩ : BollingerBands)] i
        BollingerBands.zero).MiddleBand ≤
        (List.getD [(⟨⟨none, some 1⟩, 4, 2, 0, 2⟩ : BollingerBands)] i
          BollingerBands.zero).UpperBand ∧
      (List.getD [(⟨⟨none, some 1⟩, 4, 2, 0, 2⟩ : BollingerBands)] i
        BollingerBands.zero).LowerBand ≤
        (List.getD [(⟨⟨none, some 1⟩, 4, 2, 0, 2⟩ : BollingerBands)] i
          BollingerBands.zero).MiddleBand ∧
      (((List.getD [(⟨⟨none, some 1⟩, 4, 2, 0, 2⟩ : BollingerBands)] i
          BollingerBands.zero).UpperBand =
          (List.getD [(⟨⟨none, some 1⟩, 4, 2, 0, 2⟩ : BollingerBands)] i
            BollingerBands.zero).MiddleBand ∨
        (List.getD [(⟨⟨none, some 1⟩, 4, 2, 0, 2⟩ : BollingerBands)] i
          BollingerBands.zero).MiddleBand =
          (List.getD [(⟨⟨none, some 1⟩, 4, 2, 0, 2⟩ : BollingerBands)] i
            BollingerBands.zero).LowerBand) ↔
        bbStdDev ((collectPricesFrom ClosePrice
          ((bbWitnessData.drop i).take (2 : ℤ).toNat) i).1) 2 = 0) :=
  ⟨by norm_num, calculateBB_bbw,
    bollingerBands_invariant bbWitnessData 2 2 ClosePrice _ (by norm_num)
      calculateBB_bbw⟩

/-! ## Claim C3: volume-breakout tiers at a 5x spike with multiplier 2 -/

/-- Evaluation: volume analysis of `c3data` with both periods 5. -/
theorem volAnalysis_c3_eval :
    CalculateVolumeAnalysis c3data 5 5 =
      ([⟨formatTime 5, 0, 0, 0, 0, 0, 0⟩, ⟨formatTime 6, 100, 20, 0, 0, 0, 0⟩], none) := by
  have htn : (5 : ℤ).toNat = 5 := rfl
  norm_num [CalculateVolumeAnalysis, goMax, c3data, htn, volLoop]

/-- Evaluation: the latest volume point of `c3data`: volume 100, VMA 20. -/
theorem getLatestVol_c3_eval :
    GetLatestVolumeAnalysis c3data 5 5 = (⟨formatTime 6, 100, 20, 0, 0, 0, 0⟩, none) := by
  norm_num [GetLatestVolumeAnalysis, volAnalysis_c3_eval]

/-- Evaluation: breakout detection on `c3data` (ratio 5, multiplier 2)
yields a strong (not extreme) breakout with confidence 0.8. -/
theorem detectVolumeBreakout_c3_eval :
    DetectVolumeBreakout c3data 5 2 = (⟨"breakout", "strong", "neutral", 0.8⟩, none) := by
  norm_num [DetectVolumeBreakout, getLatestVol_c3_eval]
  norm_num [c3data]

/-- Counterexample to C3 as stated: on `c3data` the latest volume is five
times the latest VMA, yet the strength is `strong` with confidence 0.8 —
not `extreme`/0.9 (extreme requires a ratio of at least 3 x 2 = 6). -/
theorem detectVolumeBreakout_not_extreme :
    (GetLatestVolumeAnalysis c3data 5 5).1.Volume =
      5 * (GetLatestVolumeAnalysis c3data 5 5).1.VMA ∧
    (DetectVolumeBreakout c3data 5 2).1.Strength = "strong" ∧
    (DetectVolumeBreakout c3data 5 2).1.Confidence = 0.8 ∧
    (DetectVolumeBreakout c3data 5 2).1.Strength ≠ "extreme" ∧
    (DetectVolumeBreakout c3data 5 2).1.Confidence ≠ 0.9 := by
  rw [getLatestVol_c3_eval, detectVolumeBreakout_c3_eval]
  norm_num
  decide

/-- C3 (amended): a series whose latest volume is 5 times the latest
(nonzero) trailing VMA produces, with multiplier 2.0, a `breakout` signal
of strength `strong` and confidence 0.8 (the `extreme`/0.9 tier requires a
ratio of at least 3 x the multiplier = 6). -/
theorem c3_volume_spike_tier (dataset : List OHLCV) (vmaPeriod : ℤ)
    (latest : VolumeResult)
    (hv : GetLatestVolumeAnalysis dataset vmaPeriod 5 = (latest, none))
    (h5 : latest.Volume = 5 * latest.VMA) (hvma : latest.VMA ≠ 0) :
    (DetectVolumeBreakout dataset vmaPeriod 2).1.Strength = "strong" ∧
    (DetectVolumeBreakout dataset vmaPeriod 2).1.Confidence = 0.8 ∧
    (DetectVolumeBreakout dataset vmaPeriod 2).1.Type_ = "breakout" ∧
    (DetectVolumeBreakout dataset vmaPeriod 2).2 = none := by
  unfold DetectVolumeBreakout
  rw [hv]
  have hr : latest.Volume / latest.VMA = 5 := by
    rw [h5, mul_div_assoc, div_self hvma, mul_one]
  simp only [hr]
  norm_num

/-- Witness for `c3_volume_spike_tier` at the concrete series `c3data`. -/
theorem c3_volume_spike_tier_witness :
    GetLatestVolumeAnalysis c3data 5 5 = (⟨formatTime 6, 100, 20, 0, 0, 0, 0⟩, none) ∧
    (⟨formatTime 6, 100, 20, 0, 0, 0, 0⟩ : VolumeResult).Volume =
      5 * (⟨formatTime 6, 100, 20, 0, 0, 0, 0⟩ : VolumeResult).VMA ∧
    (⟨formatTime 6, 100, 20, 0, 0, 0, 0⟩ : VolumeResult).VMA ≠ 0 ∧
    ((DetectVolumeBreakout c3data 5 2).1.Strength = "strong" ∧
      (DetectVolumeBreakout c3data 5 2).1.Confidence = 0.8 ∧
      (DetectVolumeBreakout c3data 5 2).1.Type_ = "breakout" ∧
      (DetectVolumeBreakout c3data 5 2).2 = none) :=
  ⟨getLatestVol_c3_eval, by norm_num, by norm_num,
    c3_volume_spike_tier c3data 5 _ getLatestVol_c3_eval (by norm_num) (by norm_num)⟩

/-! ## Claim C6: flat series keeps OBV/VPT/ADL at the seed and VROC at 0 -/

/-- The volume loop with constant volume `v`, constant close `c` and flat
(high = low) bars keeps all three accumulators at `v` and emits `VROC = 0`
at every point. -/
theorem volLoop_flat (volumes closes highs lows : List ℝ) (times : List ℤ)
    (vmaP vrocP : ℕ) (v c : ℝ)
    (hv : ∀ i, i < volumes.length → volumes.getD i 0 = v)
    (hc : ∀ i, i < closes.length → closes.getD i 0 = c)
    (hcl : closes.length = volumes.length)
    (hhl : ∀ i, i < volumes.length → highs.getD i 0 = lows.getD i 0) :
    ∀ (k i : ℕ), i + k ≤ volumes.length →
      ∀ r ∈ volLoop volumes closes highs lows times vmaP vrocP k i v v v,
        r.OBV = v ∧ r.VPT = v ∧ r.ADL = v ∧ r.VROC = 0
  | 0, i => by
    intro hik r hr
    rw [volLoop] at hr
    simp at hr
  | k + 1, i => by
    intro hik r hr
    have hi : i < volumes.length := by omega
    have hobv : (if 0 < i then
        if closes.getD i 0 > closes.getD (i - 1) 0 then v + volumes.getD i 0
        else if closes.getD i 0 < closes.getD (i - 1) 0 then v - volumes.getD i 0
        else v
      else v) = v := by
      rcases Nat.eq_zero_or_pos i with h0 | h0
      · rw [if_neg (by omega)]
      · rw [if_pos h0, hc i (by omega), hc (i - 1) (by omega)]
        simp [lt_irrefl]
    have hvpt : (if 0 < i ∧ closes.getD (i - 1) 0 ≠ 0 then
        v + volumes.getD i 0 *
          ((closes.getD i 0 - closes.getD (i - 1) 0) / closes.getD (i - 1) 0)
      else v) = v := by
      rcases Nat.eq_zero_or_pos i with h0 | h0
      · rw [if_neg (by simp [h0])]
      · rw [hc i (by omega), hc (i - 1) (by omega)]
        simp
    have hvroc : (if vrocP ≤ i ∧ volumes.getD (i - vrocP) 0 ≠ 0 then
        (volumes.getD i 0 - volumes.getD (i - vrocP) 0) / volumes.getD (i - vrocP) 0 * 100
      else 0) = (0 : ℝ) := by
      rcases le_or_lt vrocP i with h0 | h0
      · rw [hv i (by omega), hv (i - vrocP) (by omega)]
        simp
      · rw [if_neg (by omega)]
    have hadl : (if highs.getD i 0 ≠ lows.getD i 0 then
        v + (closes.getD i 0 - lows.getD i 0 - (highs.getD i 0 - closes.getD i 0)) /
          (highs.getD i 0 - lows.getD i 0) * volumes.getD i 0
      else v) = v := by
      rw [if_neg (not_ne_iff.mpr (hhl i hi))]
    rw [volLoop] at hr
    simp only [hobv, hvpt, hvroc, hadl] at hr
    rcases List.mem_cons.mp hr with h | h
    · subst h
      exact ⟨rfl, rfl, rfl, rfl⟩
    · exact volLoop_flat volumes closes highs lows times vmaP vrocP v c hv hc hcl hhl
        k (i + 1) (by omega) r h

/-- C6 (amended): for every series with constant volume `v`, constant
close and every bar's high equal to its low, every point emitted by
`CalculateVolumeAnalysis` has OBV, VPT and ADL equal to the seed `v` (the
first bar's volume) and VROC equal to 0.  (The high = low condition is
necessary: see the counterexample.) -/
theorem c6_flat_series (dataset : List OHLCV) (vmaPeriod vrocPeriod : ℤ) (v c : ℝ)
    (hvol : ∀ b ∈ dataset, b.Volume = v)
    (hclose : ∀ b ∈ dataset, b.Close = c)
    (hflat : ∀ b ∈ dataset, b.High = b.Low) :
    ∀ r ∈ (CalculateVolumeAnalysis dataset vmaPeriod vrocPeriod).1,
      r.OBV = v ∧ r.VPT = v ∧ r.ADL = v ∧ r.VROC = 0 := by
  intro r hr
  unfold CalculateVolumeAnalysis at hr
  by_cases h0 : dataset.length = 0
  · rw [if_pos h0] at hr; simp at hr
  · rw [if_neg h0] at hr
    by_cases h1 : vmaPeriod ≤ 0 ∨ vrocPeriod ≤ 0
    · rw [if_pos h1] at hr; simp at hr
    · rw [if_neg h1] at hr
      by_cases h2 : (dataset.length : ℤ) ≤ goMax vmaPeriod vrocPeriod
      · rw [if_pos h2] at hr; simp at hr
      · rw [if_neg h2] at hr
        have hv : ∀ i, i < (dataset.map (fun b => b.Volume)).length →
            (dataset.map (fun b => b.Volume)).getD i 0 = v := by
          intro i hi
          rw [List.getD_eq_getElem _ _ hi, List.getElem_map]
          exact hvol _ (List.getElem_mem _)
        have hc : ∀ i, i < (dataset.map (fun b => b.Close)).length →
            (dataset.map (fun b => b.Close)).getD i 0 = c := by
          intro i hi
          rw [List.getD_eq_getElem _ _ hi, List.getElem_map]
          exact hclose _ (List.getElem_mem _)
        have hhl : ∀ i, i < (dataset.map (fun b => b.Volume)).length →
            (dataset.map (fun b => b.High)).getD i 0 =
              (dataset.map (fun b => b.Low)).getD i 0 := by
          intro i hi
          simp only [List.length_map] at hi
          rw [List.getD_eq_getElem _ _ (by simpa using hi),
            List.getD_eq_getElem _ _ (by simpa using hi),
            List.getElem_map, List.getElem_map]
          exact hflat _ (List.getElem_mem _)
        have hseed : (dataset.map (fun c => c.Volume)).getD 0 0 = v :=
          hv 0 (by simp; omega)
        rw [hseed] at hr
        refine volLoop_flat _ _ _ _ _ _ _ v c hv hc (by simp) hhl _ _ ?_ r hr
        simp only [List.length_map]
        omega

/-- Counterexample to C6 as stated: `c6cx` has constant volume 10 and
constant close 5, yet the ADL of the first emitted point is 0, not the
seeded 10 — the bars have high ≠ low and a money-flow multiplier of -1,
so the ADL drifts. -/
theorem volumeAnalysis_adl_drifts :
    (∀ b ∈ c6cx, b.Volume = 10) ∧ (∀ b ∈ c6cx, b.Close = 5) ∧
    CalculateVolumeAnalysis c6cx 1 1 =
      ([⟨formatTime 1, 10, 10, 10, 10, 0, 0⟩,
        ⟨formatTime 2, 10, 10, 10, 10, 0, -10⟩], none) ∧
    ((CalculateVolumeAnalysis c6cx 1 1).1.getD 0 VolumeResult.zero).ADL ≠ 10 := by
  have htn : (1 : ℤ).toNat = 1 := rfl
  have heval : CalculateVolumeAnalysis c6cx 1 1 =
      ([⟨formatTime 1, 10, 10, 10, 10, 0, 0⟩,
        ⟨formatTime 2, 10, 10, 10, 10, 0, -10⟩], none) := by
    norm_num [CalculateVolumeAnalysis, goMax, c6cx, htn, volLoop]
  refine ⟨by simp [c6cx], by simp [c6cx], heval, ?_⟩
  rw [heval]
  norm_num

/-- Witness for `c6_flat_series` on the fully flat series `c6w`. -/
theorem c6_flat_series_witness :
    (∀ b ∈ c6w, b.Volume = 10) ∧ (∀ b ∈ c6w, b.Close = 5) ∧
    (∀ b ∈ c6w, b.High = b.Low) ∧
    ∀ r ∈ (CalculateVolumeAnalysis c6w 1 1).1,
      r.OBV = 10 ∧ r.VPT = 10 ∧ r.ADL = 10 ∧ r.VROC = 0 := by
  refine ⟨by simp [c6w], by simp [c6w], by simp [c6w], ?_⟩
  exact c6_flat_series c6w 1 1 10 5 (by simp [c6w]) (by simp [c6w]) (by simp [c6w])

/-! ## Claim C5: the extreme-condition override in the technical fusion -/

/-- C5: whenever the RSI condition is extreme-high and the band position
is above-upper, `ComprehensiveAnalysis` returns STRONG SELL / HIGH / HIGH
regardless of the vote counts; symmetric extreme-low + below-lower forces
STRONG BUY / HIGH / LOW. -/
theorem c5_override (dataset : List OHLCV) (smaPeriod bbPeriod rsiPeriod : ℤ)
    (bbMultiplier : ℝ) (priceType : PriceType) :
    ((AnalyzeRSIStrategy dataset rsiPeriod priceType).1.Condition = RSIExtremeHigh →
      (AnalyzeBollingerStrategy dataset bbPeriod bbMultiplier priceType).1.Position =
        AboveUpperBand →
      (ComprehensiveAnalysis dataset smaPeriod bbPeriod rsiPeriod bbMultiplier
        priceType).2 = none ∧
      (ComprehensiveAnalysis dataset smaPeriod bbPeriod rsiPeriod bbMultiplier
        priceType).1.FinalSignal = "STRONG SELL" ∧
      (ComprehensiveAnalysis dataset smaPeriod bbPeriod rsiPeriod bbMultiplier
        priceType).1.Confidence = "HIGH" ∧
      (ComprehensiveAnalysis dataset smaPeriod bbPeriod rsiPeriod bbMultiplier
        priceType).1.RiskLevel = "HIGH") ∧
    ((AnalyzeRSIStrategy dataset rsiPeriod priceType).1.Condition = RSIExtremeLow →
      (AnalyzeBollingerStrategy dataset bbPeriod bbMultiplier priceType).1.Position =
        BelowLowerBand →
      (ComprehensiveAnalysis dataset smaPeriod bbPeriod rsiPeriod bbMultiplier
        priceType).2 = none ∧
      (ComprehensiveAnalysis dataset smaPeriod bbPeriod rsiPeriod bbMultiplier
        priceType).1.FinalSignal = "STRONG BUY" ∧
      (ComprehensiveAnalysis dataset smaPeriod bbPeriod rsiPeriod bbMultiplier
        priceType).1.Confidence = "HIGH" ∧
      (ComprehensiveAnalysis dataset smaPeriod bbPeriod rsiPeriod bbMultiplier
        priceType).1.RiskLevel = "LOW") := by
  constructor
  · intro h1 h2
    refine ⟨rfl, ?_, ?_, ?_⟩ <;>
      simp [ComprehensiveAnalysis, h1, h2]
  · intro h1 h2
    have hne : ¬ (RSIExtremeLow = RSIExtremeHigh) := by decide
    refine ⟨rfl, ?_, ?_, ?_⟩ <;>
      simp [ComprehensiveAnalysis, h1, h2, hne, RSIExtremeLow, RSIExtremeHigh]

/-! ## Claim C9: the low-volume-alert override in `UltimateAnalysis` -/

/-- C9: whenever the volume strategy signal is `low_volume_alert`,
`UltimateAnalysis` succeeds and returns SUSPICIOUS / LOW / HIGH, whatever
the volume-confirmation adjustment produced. -/
theorem c9_low_volume_override (dataset : List OHLCV)
    (smaPeriod bbPeriod rsiPeriod vmaPeriod : ℤ) (bbMultiplier : ℝ)
    (vs : VolumeStrategy)
    (hv : AnalyzeVolumeStrategy dataset vmaPeriod 5 = (vs, none))
    (hs : vs.Signal = "low_volume_alert") :
    (UltimateAnalysis dataset smaPeriod bbPeriod rsiPeriod vmaPeriod bbMultiplier).2 =
      none ∧
    (UltimateAnalysis dataset smaPeriod bbPeriod rsiPeriod vmaPeriod
      bbMultiplier).1.FinalSignal = "SUSPICIOUS" ∧
    (UltimateAnalysis dataset smaPeriod bbPeriod rsiPeriod vmaPeriod
      bbMultiplier).1.Confidence = "LOW" ∧
    (UltimateAnalysis dataset smaPeriod bbPeriod rsiPeriod vmaPeriod
      bbMultiplier).1.RiskLevel = "HIGH" := by
  have hC : ComprehensiveAnalysis dataset smaPeriod bbPeriod rsiPeriod bbMultiplier
      ClosePrice =
      ((ComprehensiveAnalysis dataset smaPeriod bbPeriod rsiPeriod bbMultiplier
        ClosePrice).1, none) := by
    rw [← comprehensiveAnalysis_snd dataset smaPeriod bbPeriod rsiPeriod bbMultiplier
      ClosePrice]
  refine ⟨?_, ?_, ?_, ?_⟩
  · unfold UltimateAnalysis
    rw [hC, hv]
  all_goals unfold UltimateAnalysis
  all_goals rw [hC, hv]
  all_goals simp [hs]


/-- Evaluation: volume analysis of `wc9` with both periods 5. -/
theorem wc9_vol55_eval :
    CalculateVolumeAnalysis wc9 5 5 =
      ([⟨formatTime 5, 100, 100, 100, 100, 0, 100⟩,
        ⟨formatTime 6, 100, 100, 100, 100, 0, 100⟩,
        ⟨formatTime 7, 100, 100, 100, 100, 0, 100⟩,
        ⟨formatTime 8, 100, 100, 100, 100, 0, 100⟩,
        ⟨formatTime 9, 100, 100, 100, 100, 0, 100⟩,
        ⟨formatTime 10, 10, 82, 100, 100, -90, 100⟩], none) := by
  have htn : (5 : ℤ).toNat = 5 := rfl
  norm_num [CalculateVolumeAnalysis, goMax, wc9, htn, volLoop]

/-- Evaluation: volume analysis of `wc9` with periods 10/5 (used by the
accumulation detector): a single point, fewer than its lookback. -/
theorem wc9_vol105_eval :
    CalculateVolumeAnalysis wc9 10 5 =
      ([⟨formatTime 10, 10, 91, 100, 100, -90, 100⟩], none) := by
  have htn : (10 : ℤ).toNat = 10 := rfl
  have htn5 : (5 : ℤ).toNat = 5 := rfl
  norm_num [CalculateVolumeAnalysis, goMax, wc9, htn, htn5, volLoop]

/-- Evaluation: the latest volume point of `wc9`. -/
theorem wc9_latest_eval :
    GetLatestVolumeAnalysis wc9 5 5 =
      (⟨formatTime 10, 10, 82, 100, 100, -90, 100⟩, none) := by
  norm_num [GetLatestVolumeAnalysis, wc9_vol55_eval]

/-- Evaluation: breakout detection on `wc9` is a weak `normal` signal. -/
theorem wc9_breakout_eval :
    DetectVolumeBreakout wc9 5 2 = (⟨"normal", "weak", "neutral", 0.3⟩, none) := by
  norm_num [DetectVolumeBreakout, wc9_latest_eval]

/-- Evaluation: accumulation detection on `wc9` has insufficient data. -/
theorem wc9_accum_eval :
    DetectAccumulationDistribution wc9 10 =
      (⟨"insufficient_data", "", "", 0⟩, none) := by
  norm_num [DetectAccumulationDistribution, wc9_vol105_eval]

/-- Evaluation: the volume strategy on `wc9` raises `low_volume_alert`
(ratio 10/82 < 0.5). -/
theorem wc9_volstrat_eval :
    AnalyzeVolumeStrategy wc9 5 5 =
      (⟨⟨formatTime 10, 10, 82, 100, 100, -90, 100⟩,
        ⟨"normal", "weak", "neutral", 0.3⟩,
        ⟨"insufficient_data", "", "", 0⟩,
        5 / 41, "sideways", "low_volume_alert"⟩, none) := by
  norm_num [AnalyzeVolumeStrategy, wc9_latest_eval, wc9_breakout_eval, wc9_accum_eval,
    wc9_vol55_eval]
  decide

/-- Witness for `c9_low_volume_override` on `wc9`. -/
theorem c9_witness :
    AnalyzeVolumeStrategy wc9 5 5 =
      (⟨⟨formatTime 10, 10, 82, 100, 100, -90, 100⟩,
        ⟨"normal", "weak", "neutral", 0.3⟩,
        ⟨"insufficient_data", "", "", 0⟩,
        5 / 41, "sideways", "low_volume_alert"⟩, none) ∧
    (⟨⟨formatTime 10, 10, 82, 100, 100, -90, 100⟩,
        ⟨"normal", "weak", "neutral", 0.3⟩,
        ⟨"insufficient_data", "", "", 0⟩,
        5 / 41, "sideways", "low_volume_alert"⟩ : VolumeStrategy).Signal =
      "low_volume_alert" ∧
    ((UltimateAnalysis wc9 4 1 3 5 2).2 = none ∧
      (UltimateAnalysis wc9 4 1 3 5 2).1.FinalSignal = "SUSPICIOUS" ∧
      (UltimateAnalysis wc9 4 1 3 5 2).1.Confidence = "LOW" ∧
      (UltimateAnalysis wc9 4 1 3 5 2).1.RiskLevel = "HIGH") :=
  ⟨wc9_volstrat_eval, rfl,
    c9_low_volume_override wc9 4 1 3 5 2 _ wc9_volstrat_eval rfl⟩


/-- Evaluation: the low-price change list of `wc5` is nine unit gains. -/
theorem wc5_changes_eval :
    rsiChanges LowPrice wc5 =
      [(1, 0, 1), (1, 0, 2), (1, 0, 3), (1, 0, 4), (1, 0, 5), (1, 0, 6), (1, 0, 7),
       (1, 0, 8), (1, 0, 9)] := by
  norm_num [rsiChanges, wc5, OHLCV.ExtractPrice]

/-- Evaluation: the low-price RSI of `wc5` is the sentinel value at every
point. -/
theorem wc5_rsi_eval :
    CalculateRSI wc5 3 LowPrice =
      ([⟨formatTime 3, 10000 / 101, "extreme_overbought"⟩,
        ⟨formatTime 4, 10000 / 101, "extreme_overbought"⟩,
        ⟨formatTime 5, 10000 / 101, "extreme_overbought"⟩,
        ⟨formatTime 6, 10000 / 101, "extreme_overbought"⟩,
        ⟨formatTime 7, 10000 / 101, "extreme_overbought"⟩,
        ⟨formatTime 8, 10000 / 101, "extreme_overbought"⟩,
        ⟨formatTime 9, 10000 / 101, "extreme_overbought"⟩], none) := by
  have h1 : wc5.length = 10 := by simp [wc5]
  have htn : (3 : ℤ).toNat = 3 := rfl
  norm_num [CalculateRSI, h1, wc5_changes_eval, htn]
  norm_num [rsiLoop, rsiValue, rsOf, getRSISignal]
  norm_num [wc5]

/-- Evaluation: the latest RSI point of `wc5`. -/
theorem wc5_latestRSI_eval :
    GetLatestRSI wc5 3 LowPrice =
      (⟨formatTime 9, 10000 / 101, "extreme_overbought"⟩, none) := by
  norm_num [GetLatestRSI, wc5_rsi_eval]

/-- Evaluation: divergence detection on `wc5` has insufficient data. -/
theorem wc5_divergence_eval :
    DetectRSIDivergence wc5 3 LowPrice 10 =
      (⟨"none", "insufficient_data", 0⟩, none) := by
  have h1 : wc5.length = 10 := by simp [wc5]
  norm_num [DetectRSIDivergence, wc5_rsi_eval, h1]

/-- Evaluation: the RSI strategy on `wc5`: condition extreme-high. -/
theorem wc5_rsiStrategy_eval :
    AnalyzeRSIStrategy wc5 3 LowPrice =
      (⟨⟨formatTime 9, 10000 / 101, "extreme_overbought"⟩, RSIExtremeHigh,
        ⟨"none", "insufficient_data", 0⟩, "hold", "neutral"⟩, none) := by
  norm_num [AnalyzeRSIStrategy, wc5_latestRSI_eval, wc5_divergence_eval, wc5_rsi_eval,
    RSIExtremeHigh, RSIExtremeLow, RSIOversold, RSIOverbought, RSINeutral]
  decide


/-- Evaluation: dropping the last bar of `wc5` gives `wc5p`. -/
theorem wc5_dropLast : wc5.dropLast = wc5p := by
  norm_num [wc5, wc5p]

/-- Evaluation: period-1 low-price bands of `wc5` (zero width). -/
theorem wc5_bb_eval :
    CalculateBollingerBands wc5 1 2 LowPrice =
      ([⟨formatTime 0, 1, 1, 1, 0⟩, ⟨formatTime 1, 2, 2, 2, 0⟩,
        ⟨formatTime 2, 3, 3, 3, 0⟩, ⟨formatTime 3, 4, 4, 4, 0⟩,
        ⟨formatTime 4, 5, 5, 5, 0⟩, ⟨formatTime 5, 6, 6, 6, 0⟩,
        ⟨formatTime 6, 7, 7, 7, 0⟩, ⟨formatTime 7, 8, 8, 8, 0⟩,
        ⟨formatTime 8, 9, 9, 9, 0⟩, ⟨formatTime 9, 10, 10, 10, 0⟩], none) := by
  have htn : (1 : ℤ).toNat = 1 := rfl
  norm_num [CalculateBollingerBands, wc5, htn, mkBBPoint, OHLCV.ExtractPrice,
    List.range_succ]

/-- Evaluation: period-1 low-price bands of `wc5p`. -/
theorem wc5p_bb_eval :
    CalculateBollingerBands wc5p 1 2 LowPrice =
      ([⟨formatTime 0, 1, 1, 1, 0⟩, ⟨formatTime 1, 2, 2, 2, 0⟩,
        ⟨formatTime 2, 3, 3, 3, 0⟩, ⟨formatTime 3, 4, 4, 4, 0⟩,
        ⟨formatTime 4, 5, 5, 5, 0⟩, ⟨formatTime 5, 6, 6, 6, 0⟩,
        ⟨formatTime 6, 7, 7, 7, 0⟩, ⟨formatTime 7, 8, 8, 8, 0⟩,
        ⟨formatTime 8, 9, 9, 9, 0⟩], none) := by
  have htn : (1 : ℤ).toNat = 1 := rfl
  norm_num [CalculateBollingerBands, wc5p, htn, mkBBPoint, OHLCV.ExtractPrice,
    List.range_succ]

/-- Evaluation: the latest band triple of `wc5`. -/
theorem wc5_latestBB_eval :
    GetLatestBollingerBands wc5 1 2 LowPrice =
      (⟨formatTime 9, 10, 10, 10, 0⟩, none) := by
  norm_num [GetLatestBollingerBands, wc5_bb_eval]

/-- Evaluation: the latest band triple of `wc5p`. -/
theorem wc5p_latestBB_eval :
    GetLatestBollingerBands wc5p 1 2 LowPrice =
      (⟨formatTime 8, 9, 9, 9, 0⟩, none) := by
  norm_num [GetLatestBollingerBands, wc5p_bb_eval]

/-- Evaluation: the close 20 is above the upper band 10 of `wc5`. -/
theorem wc5_pos_eval :
    GetPricePosition wc5 1 2 LowPrice (1 / 50) = (AboveUpperBand, none) := by
  have h1 : wc5.length = 10 := by simp [wc5]
  norm_num [GetPricePosition, wc5_latestBB_eval, h1]
  norm_num [wc5, OHLCV.ExtractPrice]

/-- Evaluation: the close 20 is above the upper band 9 of `wc5p`. -/
theorem wc5p_pos_eval :
    GetPricePosition wc5p 1 2 LowPrice (1 / 50) = (AboveUpperBand, none) := by
  have h1 : wc5p.length = 9 := by simp [wc5p]
  norm_num [GetPricePosition, wc5p_latestBB_eval, h1]
  norm_num [wc5p, OHLCV.ExtractPrice]

/-- Evaluation: no breakout on `wc5` (above-upper both before and after). -/
theorem wc5_breakout_eval :
    BollingerBreakout wc5 1 2 LowPrice = ("no_breakout", none) := by
  have h1 : wc5.length = 10 := by simp [wc5]
  norm_num [BollingerBreakout, h1, wc5_dropLast, wc5_pos_eval, wc5p_pos_eval,
    AboveUpperBand, BetweenBands, TouchingUpper, TouchingLower, BelowLowerBand]
  decide

/-- Evaluation: no squeeze on `wc5` (all widths 0). -/
theorem wc5_squeeze_eval :
    BollingerSqueeze wc5 1 2 LowPrice 10 = (false, none) := by
  norm_num [BollingerSqueeze, wc5_bb_eval]

/-- Evaluation: the Bollinger strategy on `wc5`: position above-upper. -/
theorem wc5_bbStrategy_eval :
    AnalyzeBollingerStrategy wc5 1 2 LowPrice =
      (⟨AboveUpperBand, "no_breakout", false, 0, "hold"⟩, none) := by
  norm_num [AnalyzeBollingerStrategy, wc5_pos_eval, wc5_breakout_eval,
    wc5_squeeze_eval, wc5_latestBB_eval]
  decide

/-- Witness for `c5_override` on `wc5`: only one bullish and no bearish
vote, yet the override forces STRONG SELL / HIGH / HIGH. -/
theorem c5_witness :
    (AnalyzeRSIStrategy wc5 3 LowPrice).1.Condition = RSIExtremeHigh ∧
    (AnalyzeBollingerStrategy wc5 1 2 LowPrice).1.Position = AboveUpperBand ∧
    ((ComprehensiveAnalysis wc5 4 1 3 2 LowPrice).2 = none ∧
      (ComprehensiveAnalysis wc5 4 1 3 2 LowPrice).1.FinalSignal = "STRONG SELL" ∧
      (ComprehensiveAnalysis wc5 4 1 3 2 LowPrice).1.Confidence = "HIGH" ∧
      (ComprehensiveAnalysis wc5 4 1 3 2 LowPrice).1.RiskLevel = "HIGH") := by
  have h1 : (AnalyzeRSIStrategy wc5 3 LowPrice).1.Condition = RSIExtremeHigh := by
    rw [wc5_rsiStrategy_eval]
  have h2 : (AnalyzeBollingerStrategy wc5 1 2 LowPrice).1.Position = AboveUpperBand := by
    rw [wc5_bbStrategy_eval]
  exact ⟨h1, h2, (c5_override wc5 4 1 3 2 LowPrice).1 h1 h2⟩

/-! ## Claim C10: the legacy string SMA refines the OHLCV SMA -/

/-- If the field parses of a candle succeed, the legacy `extractPrice`
agrees with `ExtractPrice` on the converted bar, for every price type. -/
theorem convertCandleFields_extract (i : ℕ) (c : List GoStr) (ts : ℤ) (bar : OHLCV)
    (hlen : ¬ c.length < 6)
    (h : convertCandleFields i c ts = (bar, none)) (pt : PriceType) :
    extractPrice c pt = (bar.ExtractPrice pt, none) := by
  unfold convertCandleFields at h
  cases hop : (c.getD 1 GoStr.zero).asFloat with
  | none => rw [hop] at h; simp at h
  | some op =>
    rw [hop] at h
    cases hcl : (c.getD 2 GoStr.zero).asFloat with
    | none => rw [hcl] at h; simp at h
    | some cl =>
      rw [hcl] at h
      cases hhi : (c.getD 3 GoStr.zero).asFloat with
      | none => rw [hhi] at h; simp at h
      | some hi =>
        rw [hhi] at h
        cases hlo : (c.getD 4 GoStr.zero).asFloat with
        | none => rw [hlo] at h; simp at h
        | some lo =>
          rw [hlo] at h
          cases hvol : (c.getD 5 GoStr.zero).asFloat with
          | none => rw [hvol] at h; simp at h
          | some vol =>
            rw [hvol] at h
            have hbar : bar = ⟨ts, op, hi, lo, cl, vol⟩ := by
              cases h; rfl
            subst hbar
            unfold extractPrice
            rw [if_neg hlen, hop, hcl, hhi, hlo]
            cases pt <;> rfl

/-- If a candle converts successfully, the legacy `extractPrice` agrees
with `ExtractPrice` on the converted bar, for every price type. -/
theorem convertCandle_extract (i : ℕ) (c : List GoStr) (bar : OHLCV)
    (h : convertCandle i c = (bar, none)) (pt : PriceType) :
    extractPrice c pt = (bar.ExtractPrice pt, none) := by
  unfold convertCandle at h
  by_cases hlen : c.length < 6
  · rw [if_pos hlen] at h; simp at h
  · rw [if_neg hlen] at h
    cases hts : (c.getD 0 GoStr.zero).asFloat with
    | some unixTime =>
      rw [hts] at h
      exact convertCandleFields_extract i c _ bar hlen h pt
    | none =>
      rw [hts] at h
      cases hts2 : (c.getD 0 GoStr.zero).asTime with
      | some t =>
        rw [hts2] at h
        exact convertCandleFields_extract i c _ bar hlen h pt
      | none => rw [hts2] at h; simp at h

/-- A successful conversion loop produces one bar per candle, each the
successful conversion of its candle. -/
theorem convLoop_success :
    ∀ (sd : List (List GoStr)) (i : ℕ) (bars : List OHLCV),
      convLoop i sd = (bars, none) →
      bars.length = sd.length ∧
      ∀ j, j < sd.length →
        convertCandle (i + j) (sd.getD j []) = (bars.getD j OHLCV.zero, none)
  | [], i, bars => by
    intro h
    rw [convLoop] at h
    cases h
    exact ⟨rfl, fun j hj => absurd hj (Nat.not_lt_zero j)⟩
  | c :: rest, i, bars => by
    intro h
    rw [convLoop] at h
    cases hc : convertCandle i c with
    | mk bar err =>
      rw [hc] at h
      cases err with
      | some e => simp at h
      | none =>
        cases hrec : convLoop (i + 1) rest with
        | mk bs err2 =>
          rw [hrec] at h
          cases err2 with
          | some e => simp at h
          | none =>
            have hbars : bars = bar :: bs := by cases h; rfl
            subst hbars
            obtain ⟨hlen, hidx⟩ := convLoop_success rest (i + 1) bs hrec
            refine ⟨by simp [hlen], ?_⟩
            intro j hj
            cases j with
            | zero =>
              simpa using hc
            | succ m =>
              simp only [List.getD_cons_succ]
              have harith : i + (m + 1) = i + 1 + m := by omega
              rw [harith]
              exact hidx m (by simpa using Nat.lt_of_succ_lt_succ hj)

/-- When every candle converts, the legacy window sum equals the sum of
the extracted prices of the converted window. -/
theorem sumPrices_eq (sd : List (List GoStr)) (bars : List OHLCV)
    (pt : PriceType)
    (hlen : bars.length = sd.length)
    (hrel : ∀ j, j < sd.length →
      extractPrice (sd.getD j []) pt = ((bars.getD j OHLCV.zero).ExtractPrice pt, none)) :
    ∀ (p j : ℕ), j + p ≤ sd.length →
      sumPricesFrom pt ((sd.drop j).take p) j =
        ((((bars.drop j).take p).map (fun b => b.ExtractPrice pt)).sum, none)
  | 0, j => by
    intro hjp
    simp [sumPricesFrom]
  | p + 1, j => by
    intro hjp
    have hj : j < sd.length := by omega
    have hjb : j < bars.length := by omega
    rw [List.drop_eq_getElem_cons hj, List.drop_eq_getElem_cons hjb]
    rw [List.take_succ_cons, List.take_succ_cons]
    rw [sumPricesFrom]
    have hext : extractPrice sd[j] pt = ((bars[j]).ExtractPrice pt, none) := by
      have h1 : sd.getD j [] = sd[j] := List.getD_eq_getElem sd [] hj
      have h2 : bars.getD j OHLCV.zero = bars[j] := List.getD_eq_getElem bars OHLCV.zero hjb
      rw [← h1, ← h2]
      exact hrel j hj
    rw [hext]
    have hrec := sumPrices_eq sd bars pt hlen hrel p (j + 1) (by omega)
    rw [hrec]
    simp

/-- When every candle converts, the legacy SMA loop succeeds and emits,
per window, the legacy timestamp together with the converted window's
mean. -/
theorem smaLoopStr_values (sd : List (List GoStr)) (bars : List OHLCV)
    (pt : PriceType) (period : ℤ) (p : ℕ)
    (hlen : bars.length = sd.length)
    (hrel : ∀ j, j < sd.length →
      extractPrice (sd.getD j []) pt = ((bars.getD j OHLCV.zero).ExtractPrice pt, none)) :
    ∀ (k j : ℕ), j + k + p ≤ sd.length + 1 →
      smaLoopStr sd pt period p j k =
        ((List.range k).map (fun t =>
          { Timestamp := (sd.getD (j + t + p - 1) []).getD 0 GoStr.zero
            Value := (((bars.drop (j + t)).take p).map
              (fun b => b.ExtractPrice pt)).sum / (period : ℝ) }), none)
  | 0, j => by
    intro hb
    rw [smaLoopStr]
    simp
  | k + 1, j => by
    intro hb
    rw [smaLoopStr]
    rw [sumPrices_eq sd bars pt hlen hrel p j (by omega)]
    rw [smaLoopStr_values sd bars pt period p hlen hrel k (j + 1) (by omega)]
    simp only [List.range_succ_eq_map, List.map_cons, List.map_map, Nat.add_zero]
    congr 1
    congr 1
    apply List.map_congr_left
    intro t ht
    simp [Function.comp, show j + 1 + t = j + (t + 1) from by omega]

/-- C10: on any string dataset that converts successfully, the legacy
`CalculateSMA` and the OHLCV `CalculateSMA` on the converted data return
lists of equal length with pairwise equal `Value` fields, for every
period and price selector. -/
theorem c10_sma_refinement (stringData : List (List GoStr)) (conv : List OHLCV)
    (hconv : ConvertStringDataToOHLCV stringData = (conv, none))
    (period : ℤ) (pt : PriceType) :
    (CalculateSMAStr stringData period pt).1.length =
      (CalculateSMA conv period pt).1.length ∧
    (CalculateSMAStr stringData period pt).1.map (fun r => r.Value) =
      (CalculateSMA conv period pt).1.map (fun r => r.Value) := by
  unfold ConvertStringDataToOHLCV at hconv
  by_cases h0 : stringData.length = 0
  · rw [if_pos h0] at hconv; simp at hconv
  · rw [if_neg h0] at hconv
    obtain ⟨hlen, hidx⟩ := convLoop_success stringData 0 conv hconv
    have hrel : ∀ j, j < stringData.length →
        extractPrice (stringData.getD j []) pt =
          ((conv.getD j OHLCV.zero).ExtractPrice pt, none) := by
      intro j hj
      have hj2 := hidx j hj
      simp only [Nat.zero_add] at hj2
      exact convertCandle_extract j _ _ hj2 pt
    have hc0 : ¬ conv.length = 0 := by omega
    by_cases hp : period ≤ 0
    · unfold CalculateSMAStr CalculateSMA
      rw [if_neg h0, if_neg hc0, if_pos hp, if_pos hp]
      simp
    · by_cases hgt : (stringData.length : ℤ) < period
      · unfold CalculateSMAStr CalculateSMA
        have hgt2 : (conv.length : ℤ) < period := by rw [hlen]; exact hgt
        rw [if_neg h0, if_neg hc0, if_neg hp, if_neg hp, if_pos hgt, if_pos hgt2]
        simp
      · unfold CalculateSMAStr CalculateSMA
        have hgt2 : ¬ ((conv.length : ℤ) < period) := by rw [hlen]; exact hgt
        rw [if_neg h0, if_neg hc0, if_neg hp, if_neg hp, if_neg hgt, if_neg hgt2]
        have hple : period.toNat ≤ stringData.length := by omega
        rw [smaLoopStr_values stringData conv pt period period.toNat hlen hrel
          (stringData.length - period.toNat + 1) 0 (by omega)]
        constructor
        · simp [hlen]
        · simp only [List.map_map, hlen]
          apply List.map_congr_left
          intro t ht
          simp

/-- Evaluation: `bbWitnessData` converts successfully. -/
theorem convert_bbw_eval :
    ConvertStringDataToOHLCV bbWitnessData =
      ([⟨0, 1, 1, 1, 1, 10⟩, ⟨1, 3, 3, 3, 3, 10⟩], none) := by
  norm_num [ConvertStringDataToOHLCV, convLoop, convertCandle, convertCandleFields,
    bbWitnessData, gs]

/-- Witness for `c10_sma_refinement` on the concrete two-candle data. -/
theorem c10_witness :
    ConvertStringDataToOHLCV bbWitnessData =
      ([⟨0, 1, 1, 1, 1, 10⟩, ⟨1, 3, 3, 3, 3, 10⟩], none) ∧
    ((CalculateSMAStr bbWitnessData 2 ClosePrice).1.length =
      (CalculateSMA [(⟨0, 1, 1, 1, 1, 10⟩ : OHLCV), ⟨1, 3, 3, 3, 3, 10⟩] 2
        ClosePrice).1.length ∧
     (CalculateSMAStr bbWitnessData 2 ClosePrice).1.map (fun r => r.Value) =
      (CalculateSMA [(⟨0, 1, 1, 1, 1, 10⟩ : OHLCV), ⟨1, 3, 3, 3, 3, 10⟩] 2
        ClosePrice).1.map (fun r => r.Value)) :=
  ⟨convert_bbw_eval,
    c10_sma_refinement bbWitnessData _ convert_bbw_eval 2 ClosePrice⟩
